import Mathlib

/-!
# Verification of the microcrm research-job ingestion pipeline

A shallow embedding of the lead-research pipeline of the `microcrm`
repository (`src/leads/tasks.py`, `src/leads/service.py`,
`src/leads/models.py`, `src/leads/controllers.py`), together with proofs
about the reconciliation (merge) algorithm, the multi-strategy response
parser, and the research-job state machine.

Modelling conventions:
* Django querysets over a table are modelled as a `List` held in the
  query order the code observes (`.first()` is `List.find?`).
* Case-insensitive `__iexact` lookups are modelled by comparing
  `String.toLower` images.
* The external Gemini client (the deep-research `interactions.create` /
  `interactions.get` calls and the fallback `generate_content` call) and
  the pydantic schema validator `ResearchResult.model_validate_json` are
  third-party collaborators: each is passed in as an explicit outcome or
  function parameter, so that the embedded control flow is exactly the
  source's.
* Python exceptions are modelled with `Except String`; a task that
  re-raises returns `.error`, one that returns a dict returns `.ok`.
* The partial unique index `unique_active_research_per_city`
  (ResearchJob.Meta.constraints) is modelled inside `save_job`: saving a
  row into an active status while another row for the same city is
  active fails, leaving the table unchanged, as the database would.
* City rows are abstract `Nat` identifiers; the `City.objects.get`
  lookup is modelled as total since a missing city only produces an
  error path that leaves every store untouched.
-/

namespace MicroCrm

/-- Case-insensitive string equality, modelling a Django `__iexact`
lookup: compare the per-character lowercased texts. -/
def ieq (a b : String) : Bool :=
  a.data.map Char.toLower == b.data.map Char.toLower

/-- `Temperature` enum of `tasks.py` (research-lead temperature). -/
inductive Temp
  | cold
  | warm
  | hot
deriving DecidableEq, Repr

/-- `ResearchLead` pydantic schema of `tasks.py`: one candidate lead
extracted from the research output. -/
structure ResearchLead where
  name : String
  company : String := ""
  lead_type : String := ""
  email : String := ""
  phone : String := ""
  instagram : String := ""
  telegram : String := ""
  website : String := ""
  notes : String := ""
  temperature : Temp := .cold
  tags : List String := []
deriving DecidableEq, Repr

/-- `ResearchResult` pydantic schema of `tasks.py`. -/
structure ResearchResult where
  leads : List ResearchLead
deriving DecidableEq, Repr

/-- The persistent `Lead` model of `models.py`.  `city`, `lead_type` are
foreign keys (row ids); `tags` is the many-to-many tag id set;
`last_contact` is a date and `value` a decimal, both abstracted to
numeric identifiers since the pipeline never computes with them. -/
structure Lead where
  id : Nat
  name : String
  email : String := ""
  phone : String := ""
  company : String := ""
  lead_type : Option Nat := none
  city : Option Nat := none
  telegram : String := ""
  instagram : String := ""
  website : String := ""
  source : String := ""
  status : String := "new"
  temperature : Temp := .cold
  tags : List Nat := []
  last_contact : Option Nat := none
  notes : String := ""
  value : Option Int := none
deriving DecidableEq, Repr

/-- The CRM store visible to the reconciler: the `Lead` table (in query
order), the `Tag` and `LeadType` tables as (id, name) rows, and fresh-id
counters for row creation. -/
structure CrmState where
  leads : List Lead := []
  tags : List (Nat × String) := []
  lead_types : List (Nat × String) := []
  next_lead_id : Nat := 0
  next_tag_id : Nat := 0
  next_lead_type_id : Nat := 0
deriving DecidableEq, Repr

/-- `Tag.objects.get_or_create(name__iexact=name, defaults={"name": name})`. -/
def get_or_create_tag (s : CrmState) (name : String) : Nat × CrmState :=
  match s.tags.find? (fun p => ieq p.2 name) with
  | some p => (p.1, s)
  | none =>
      (s.next_tag_id,
       { s with tags := s.tags ++ [(s.next_tag_id, name)],
                next_tag_id := s.next_tag_id + 1 })

/-- `LeadType.objects.get_or_create(name__iexact=name, defaults={"name": name})`. -/
def get_or_create_lead_type (s : CrmState) (name : String) : Nat × CrmState :=
  match s.lead_types.find? (fun p => ieq p.2 name) with
  | some p => (p.1, s)
  | none =>
      (s.next_lead_type_id,
       { s with lead_types := s.lead_types ++ [(s.next_lead_type_id, name)],
                next_lead_type_id := s.next_lead_type_id + 1 })

/-- The five contact fields iterated by `_find_existing_lead`. -/
inductive ContactField
  | email
  | phone
  | instagram
  | telegram
  | website
deriving DecidableEq, Repr

/-- `getattr(data, field)` for a contact field of a candidate lead. -/
def ResearchLead.contact (d : ResearchLead) : ContactField → String
  | .email => d.email
  | .phone => d.phone
  | .instagram => d.instagram
  | .telegram => d.telegram
  | .website => d.website

/-- The corresponding column of a stored `Lead`. -/
def Lead.contact (l : Lead) : ContactField → String
  | .email => l.email
  | .phone => l.phone
  | .instagram => l.instagram
  | .telegram => l.telegram
  | .website => l.website

/-- `contact_fields = ["email", "phone", "instagram", "telegram", "website"]`
in `_find_existing_lead`, in source order. -/
def contact_fields : List ContactField :=
  [.email, .phone, .instagram, .telegram, .website]

/-- The `for field in contact_fields` loop of `_find_existing_lead`:
for each field with a non-empty candidate value, look the value up
case-insensitively in the `Lead` table and return the first hit. -/
def find_by_contact (leads : List Lead) (d : ResearchLead) :
    List ContactField → Option Lead
  | [] => none
  | f :: fs =>
      let value := d.contact f
      if value ≠ "" then
        match leads.find? (fun l => ieq (l.contact f) value) with
        | some lead => some lead
        | none => find_by_contact leads d fs
      else find_by_contact leads d fs

/-- `_find_existing_lead(data, city)` of `tasks.py`: contact-field match
first (in the fixed field order), then a case-insensitive name + city
match as fallback. -/
def find_existing_lead (leads : List Lead) (d : ResearchLead) (city : Nat) :
    Option Lead :=
  match find_by_contact leads d contact_fields with
  | some lead => some lead
  | none => leads.find? (fun l => ieq l.name d.name && l.city == some city)

/-- The seven fill-blank fields iterated by the merge branch of
`_create_lead_from_research`. -/
inductive MergeField
  | company
  | email
  | phone
  | instagram
  | telegram
  | website
  | notes
deriving DecidableEq, Repr

/-- The tuple `("company", "email", "phone", "instagram", "telegram",
"website", "notes")` iterated by the merge loop, in source order. -/
def merge_fields : List MergeField :=
  [.company, .email, .phone, .instagram, .telegram, .website, .notes]

/-- `getattr(lead, field)` for a fill-blank field. -/
def Lead.mget (l : Lead) : MergeField → String
  | .company => l.company
  | .email => l.email
  | .phone => l.phone
  | .instagram => l.instagram
  | .telegram => l.telegram
  | .website => l.website
  | .notes => l.notes

/-- `setattr(lead, field, v)` for a fill-blank field. -/
def Lead.mset (l : Lead) : MergeField → String → Lead
  | .company, v => { l with company := v }
  | .email, v => { l with email := v }
  | .phone, v => { l with phone := v }
  | .instagram, v => { l with instagram := v }
  | .telegram, v => { l with telegram := v }
  | .website, v => { l with website := v }
  | .notes, v => { l with notes := v }

/-- `getattr(data, field)` for a fill-blank field of a candidate. -/
def ResearchLead.mget (d : ResearchLead) : MergeField → String
  | .company => d.company
  | .email => d.email
  | .phone => d.phone
  | .instagram => d.instagram
  | .telegram => d.telegram
  | .website => d.website
  | .notes => d.notes

/-- One iteration of the merge loop:
`if not getattr(lead, field) and getattr(data, field): setattr(...)`. -/
def fill_blank (l : Lead) (d : ResearchLead) (f : MergeField) : Lead :=
  if l.mget f = "" ∧ d.mget f ≠ "" then l.mset f (d.mget f) else l

/-- The whole merge loop over the seven fill-blank fields. -/
def merge_lead (l : Lead) (d : ResearchLead) : Lead :=
  merge_fields.foldl (fun acc f => fill_blank acc d f) l

/-- `temp_map.get(data.temperature, Lead.Temperature.COLD)`: the
dictionary maps each research temperature to the equal lead temperature
and is total on the enum. -/
def temp_map : Temp → Temp
  | .cold => .cold
  | .warm => .warm
  | .hot => .hot

/-- `lead.tags.add(tag)`: the m2m add, a no-op when already related. -/
def Lead.add_tag (l : Lead) (tid : Nat) : Lead :=
  if tid ∈ l.tags then l else { l with tags := l.tags ++ [tid] }

/-- The `for tag_name in data.tags` loop of `_create_lead_from_research`:
resolve/auto-create each tag case-insensitively and add it to the lead. -/
def add_research_tags (s : CrmState) (l : Lead) : List String → CrmState × Lead
  | [] => (s, l)
  | n :: ns =>
      let r := get_or_create_tag s n
      add_research_tags r.2 (l.add_tag r.1) ns

/-- The ids the tag loop resolves, in order (for stating tag additivity). -/
def resolved_tag_ids (s : CrmState) : List String → List Nat
  | [] => []
  | n :: ns =>
      let r := get_or_create_tag s n
      r.1 :: resolved_tag_ids r.2 ns

/-- `lead.save()` on an existing row: replace the row with that id. -/
def save_lead (leads : List Lead) (l : Lead) : List Lead :=
  leads.map (fun x => if x.id = l.id then l else x)

/-- The lead-type resolution step of `_create_lead_from_research`:
`if data.lead_type: LeadType.objects.get_or_create(...)`. -/
def research_lead_type (s : CrmState) (d : ResearchLead) : Option Nat × CrmState :=
  if d.lead_type ≠ "" then
    let r := get_or_create_lead_type s d.lead_type
    (some r.1, r.2)
  else (none, s)

/-- The merge branch of `_create_lead_from_research`: fill the blank
fields, then `if not lead.lead_type and lead_type: lead.lead_type = ...`. -/
def merged_lead (lead : Lead) (d : ResearchLead) (ltype : Option Nat) : Lead :=
  match (merge_lead lead d).lead_type, ltype with
  | none, some tid => { merge_lead lead d with lead_type := some tid }
  | _, _ => merge_lead lead d

/-- The `Lead.objects.create(...)` call of `_create_lead_from_research`. -/
def new_research_lead (ltype : Option Nat) (temperature : Temp)
    (d : ResearchLead) (city : Nat) (id : Nat) : Lead :=
  { id := id, name := d.name, company := d.company, email := d.email,
    phone := d.phone, instagram := d.instagram, telegram := d.telegram,
    website := d.website, notes := d.notes, city := some city,
    lead_type := ltype, temperature := temperature,
    source := "Gemini Deep Research", status := "new", value := none,
    last_contact := none, tags := [] }

/-- `_create_lead_from_research(data, city)` of `tasks.py`: find a match,
resolve the lead type, then either fill-blank-merge into the match or
create a fresh row, and finally add the candidate's tags. -/
def create_lead_from_research (s : CrmState) (d : ResearchLead) (city : Nat) :
    Lead × CrmState :=
  match find_existing_lead s.leads d city with
  | some lead =>
      let lt := research_lead_type s d
      let merged := merged_lead lead d lt.1
      let s2 := { lt.2 with leads := save_lead lt.2.leads merged }
      let r := add_research_tags s2 merged d.tags
      (r.2, { r.1 with leads := save_lead r.1.leads r.2 })
  | none =>
      let lt := research_lead_type s d
      let lead := new_research_lead lt.1 (temp_map d.temperature) d city
        lt.2.next_lead_id
      let s2 := { lt.2 with leads := lead :: lt.2.leads,
                            next_lead_id := lt.2.next_lead_id + 1 }
      let r := add_research_tags s2 lead d.tags
      (r.2, { r.1 with leads := save_lead r.1.leads r.2 })

/-! ## Response parser (`_parse_research_result` and helpers) -/

/-- The literal marker `'"leads": ['` searched for by strategy 2. -/
def leads_marker : String := "\"leads\": ["

/-- The whitespace set stripped by Python's `str.rstrip()`. -/
def is_py_space (c : Char) : Bool :=
  c = ' ' || c = '\t' || c = '\n' || c = '\r' || c = '\x0b' || c = '\x0c'

/-- Python `s.rstrip()`. -/
def py_rstrip (s : String) : String :=
  ⟨(s.data.reverse.dropWhile is_py_space).reverse⟩

/-- Python `str.find`: index (in characters) of the first occurrence of
`needle`, or `none` when absent (the code's `-1`). -/
def find_marker (needle : List Char) : List Char → Option Nat
  | [] => if needle = [] then some 0 else none
  | c :: rest =>
      if needle.isPrefixOf (c :: rest) then some 0
      else (find_marker needle rest).map (· + 1)

/-- `text_output.find(leads_marker)` followed by `text_output[idx:]`:
the suffix of the text from the first occurrence of the marker. -/
def extract_from_marker (text : String) : Option String :=
  match find_marker leads_marker.data text.data with
  | none => none
  | some idx => some ⟨text.data.drop idx⟩

/-- The fence-stripping step of strategy 2: `extracted.rstrip()`, then if
it ends with a triple backtick drop those three characters and `rstrip()`
again. -/
def strip_fence (s : String) : String :=
  let s1 := py_rstrip s
  if "```".data.isSuffixOf s1.data then
    py_rstrip ⟨s1.data.take (s1.data.length - 3)⟩
  else s1

/-- `_parse_with_gemini_fallback(text_output)`: call the secondary model
(outcome passed in as `gen`: `.error` models a raised exception, `.ok t`
a response whose `.text` is `t`, with `""` covering empty/None), reject
an empty response, then validate the response text as the schema. -/
def parse_with_gemini_fallback (validate : String → Except String ResearchResult)
    (gen : Except String String) : Except String ResearchResult :=
  match gen with
  | .error e => .error e
  | .ok txt =>
      if txt = "" then
        .error "Gemini returned empty response when parsing raw text"
      else validate txt

/-- `_parse_research_result(text_output)`: three ordered strategies,
first success wins; all exceptions from a strategy are caught and fall
through to the next; a strategy-3 failure is re-raised wrapped in a
`ValueError` naming the underlying cause.  `validate` is the pydantic
`ResearchResult.model_validate_json` collaborator. -/
def parse_research_result (validate : String → Except String ResearchResult)
    (gen : Except String String) (text_output : String) :
    Except String ResearchResult :=
  -- Strategy 1: the entire response as-is
  match validate text_output with
  | .ok r => .ok r
  | .error _ =>
      -- Strategy 2: extract from the leads marker onwards
      let second : Except String ResearchResult :=
        match extract_from_marker text_output with
        | none => .error "Could not find the leads marker in response"
        | some extracted => validate ("\x7b" ++ strip_fence extracted ++ "\x7d")
      match second with
      | .ok r => .ok r
      | .error _ =>
          -- Strategy 3: fallback model re-extraction
          match parse_with_gemini_fallback validate gen with
          | .ok r => .ok r
          | .error e =>
              .error
                ("Could not parse research result after trying all strategies: " ++ e)

/-! ## Research-job state machine (`ResearchJob`, tasks and service ops) -/

/-- `ResearchJob.Status` of `models.py`. -/
inductive JStatus
  | not_started
  | pending
  | running
  | completed
  | failed
deriving DecidableEq, Repr

/-- Membership in `active_statuses = [PENDING, RUNNING]`. -/
def JStatus.isActive : JStatus → Bool
  | .pending => true
  | .running => true
  | _ => false

/-- One `ResearchJob` row.  `completed_at` is an abstract timestamp
(`now` values are passed into the operations that set it). -/
structure RJob where
  id : Nat
  city : Nat
  status : JStatus := .not_started
  gemini_interaction_id : String := ""
  raw_result : Option String := none
  result : Option ResearchResult := none
  error : String := ""
  leads_created : Nat := 0
  completed_at : Option Nat := none
deriving DecidableEq, Repr

/-- The whole persistent state the pipeline touches: the `ResearchJob`
table (in query order, newest first), the CRM store, and a fresh job id. -/
structure SysState where
  jobs : List RJob := []
  crm : CrmState := {}
  next_job_id : Nat := 0
deriving DecidableEq, Repr

/-- `ResearchJob.objects.get(id=job_id)` (as an optional lookup). -/
def find_job (jobs : List RJob) (id : Nat) : Option RJob :=
  jobs.find? (fun j => j.id = id)

/-- `ResearchJob.objects.filter(city=city, status__in=active_statuses).exists()`. -/
def has_active_job (jobs : List RJob) (city : Nat) : Bool :=
  jobs.any (fun j => j.city == city && j.status.isActive)

/-- Replace the table row whose id is `j.id` by `j` (UPDATE by primary
key). -/
def upd_row (j x : RJob) : RJob := if x.id = j.id then j else x

/-- `job.save()` on an existing row, under the partial unique index
`unique_active_research_per_city`: writing a row into an active status
while a different row for the same city is active raises
`IntegrityError` and leaves the table unchanged. -/
def save_job (jobs : List RJob) (j : RJob) : Except String (List RJob) :=
  if j.status.isActive &&
      jobs.any (fun x => x.id ≠ j.id && x.city == j.city && x.status.isActive) then
    .error "IntegrityError: unique_active_research_per_city"
  else .ok (jobs.map (upd_row j))

/-- `ResearchJob.objects.create(...)` under the same partial unique
index; the new row goes to the head of the query order (newest first). -/
def insert_job (jobs : List RJob) (j : RJob) : Except String (List RJob) :=
  if j.status.isActive &&
      jobs.any (fun x => x.city == j.city && x.status.isActive) then
    .error "IntegrityError: unique_active_research_per_city"
  else .ok (j :: jobs)

/-- The outcome of one pipeline entry point: the state it leaves behind,
its Python-level outcome (`.ok` = returned dict, `.error` = raised
exception), and how many external `interactions.create` (deep-research
agent create) calls it issued. -/
structure OpResult (α : Type) where
  state : SysState
  result : Except String α
  agent_create_calls : Nat := 0

/-- `job.save()` lifted to `SysState`. -/
def try_save (s : SysState) (j : RJob) : Except String SysState :=
  match save_job s.jobs j with
  | .ok jobs' => .ok { s with jobs := jobs' }
  | .error e => .error e

/-- `ResearchJob.objects.create` lifted to `SysState` (also burns the
fresh id). -/
def try_insert (s : SysState) (j : RJob) : Except String SysState :=
  match insert_job s.jobs j with
  | .ok jobs' => .ok { s with jobs := jobs', next_job_id := s.next_job_id + 1 }
  | .error e => .error e

/-- `queue_research(city_id)` of `tasks.py`: reject when an active job
exists for the city, otherwise create a fresh `PENDING` job and queue
the rate-limited start task.  The `City.objects.get` lookup is modelled
as total (see the module header). -/
def queue_research (s : SysState) (city : Nat) : OpResult Nat :=
  if has_active_job s.jobs city then
    { state := s, result := .error "Research already running" }
  else
    match try_insert s { id := s.next_job_id, city := city, status := .pending } with
    | .ok s' => { state := s', result := .ok s.next_job_id }
    | .error e => { state := s, result := .error e }

/-- `create_research_job` of `service.py`: same active-job check, but
the new job starts in `NOT_STARTED`. -/
def create_research_job (s : SysState) (city : Nat) : OpResult Nat :=
  if has_active_job s.jobs city then
    { state := s, result := .error "Research already active" }
  else
    match try_insert s { id := s.next_job_id, city := city, status := .not_started } with
    | .ok s' => { state := s', result := .ok s.next_job_id }
    | .error e => { state := s, result := .error e }

/-- `run_research_job` of `service.py`: only `NOT_STARTED` or `FAILED`
jobs may be (re-)queued; sets `PENDING`, clears the interaction handle
and the error, then queues the start task. -/
def run_research_job (s : SysState) (job_id : Nat) : OpResult Nat :=
  match find_job s.jobs job_id with
  | none => { state := s, result := .error "ResearchJob not found" }
  | some job =>
      if job.status ≠ .not_started ∧ job.status ≠ .failed then
        { state := s, result := .error "Job is not in a runnable state" }
      else
        match try_save s { job with status := .pending,
                                    gemini_interaction_id := "", error := "" } with
        | .ok s' => { state := s', result := .ok job_id }
        | .error e => { state := s, result := .error e }

/-- `start_research_job(job_id)` of `tasks.py`.  `create_out` is the
outcome of the external `client.interactions.create` call (`.ok handle`
or `.error exn`); `now` is `timezone.now()`.  The except branch records
the failure on the row and then re-raises. -/
def start_research_job (s : SysState) (job_id : Nat)
    (create_out : Except String String) (now : Nat) : OpResult String :=
  match find_job s.jobs job_id with
  | none => { state := s, result := .error "ResearchJob matching query does not exist" }
  | some job =>
      -- Skip if job already has an interaction (already started)
      if job.gemini_interaction_id ≠ "" then
        { state := s, result := .ok "already_started" }
      -- Skip if job is not in a startable state
      else if job.status ≠ .pending ∧ job.status ≠ .not_started then
        { state := s, result := .ok "skipped" }
      else
        match create_out with
        | .ok handle =>
            let j' := { job with gemini_interaction_id := handle,
                                 status := .running, error := "",
                                 completed_at := none }
            match try_save s j' with
            | .ok s' =>
                { state := s', result := .ok "running", agent_create_calls := 1 }
            | .error e =>
                -- the save raised inside the try: the except branch runs
                -- on the mutated in-memory job, saves it as FAILED
                -- (inactive, so this save succeeds) and re-raises
                let jf := { j' with status := .failed, error := e,
                                    completed_at := some now }
                match try_save s jf with
                | .ok s' =>
                    { state := s', result := .error e, agent_create_calls := 1 }
                | .error e2 =>
                    { state := s, result := .error e2, agent_create_calls := 1 }
        | .error e =>
            let jf := { job with status := .failed, error := e,
                                 completed_at := some now }
            match try_save s jf with
            | .ok s' =>
                { state := s', result := .error e, agent_create_calls := 1 }
            | .error e2 =>
                { state := s, result := .error e2, agent_create_calls := 1 }

/-- Whether a `start_research_job` invocation reaches the external
`client.interactions.create` call: the job exists, has no interaction
handle yet, and is in a startable status. -/
def start_makes_create_call (s : SysState) (job_id : Nat) : Bool :=
  match find_job s.jobs job_id with
  | none => false
  | some job =>
      job.gemini_interaction_id == "" &&
        (job.status == .pending || job.status == .not_started)

/-- The `for lead_data in result.leads` loop shared by
`_process_completed_job` and `reprocess_job`: reconcile every candidate
and count the created/updated leads (`_create_lead_from_research` always
returns a lead, so every candidate counts). -/
def create_leads (crm : CrmState) (city : Nat) : List ResearchLead → CrmState × Nat
  | [] => (crm, 0)
  | d :: ds =>
      let r := create_lead_from_research crm d city
      let rest := create_leads r.2 city ds
      (rest.1, rest.2 + 1)

/-- Status of the external interaction reported by
`client.interactions.get`; `completed` carries
`interaction.outputs[-1].text` (with `""` covering an empty/None
output), `in_progress` carries the raw status label for any other
in-flight status. -/
inductive InteractionStatus
  | completed (text : String)
  | failed
  | cancelled
  | in_progress (label : String)
deriving DecidableEq, Repr

/-- The status string of the interaction as the code interpolates it. -/
def InteractionStatus.label : InteractionStatus → String
  | .completed _ => "completed"
  | .failed => "failed"
  | .cancelled => "cancelled"
  | .in_progress l => l

/-- Outcome of polling one job: either the interaction was fetched, or
the `interactions.get` call raised. -/
inductive PollOutcome
  | got (st : InteractionStatus)
  | exn (msg : String)
deriving DecidableEq, Repr

/-- `_process_completed_job(job, interaction)`: persist the raw text,
parse it, reconcile every candidate, then mark the job completed.  The
returned `RJob` is the in-memory job object (with `raw_result` already
assigned), which the caller's except branch saves on failure; `.error`
models a raised exception. -/
def process_completed_job (s : SysState) (job : RJob) (text : String)
    (validate : String → Except String ResearchResult)
    (gen : Except String String) (now : Nat) :
    SysState × RJob × Except String Unit :=
  if text = "" then (s, job, .error "No text output in response")
  else
    let j1 := { job with raw_result := some text }
    match try_save s j1 with
    | .error e => (s, j1, .error e)
    | .ok s1 =>
        match parse_research_result validate gen text with
        | .error e => (s1, j1, .error e)
        | .ok result =>
            let j2 := { j1 with result := some result }
            let cr := create_leads s1.crm job.city result.leads
            let s2 := { s1 with crm := cr.1 }
            let j3 := { j2 with leads_created := cr.2, status := .completed,
                                 completed_at := some now }
            match try_save s2 j3 with
            | .ok s3 => (s3, j3, .ok ())
            | .error e => (s2, j3, .error e)

/-- `_poll_and_process(job)`: query the external status and dispatch;
every exception inside the try is caught, recorded on the row, and
turned into a normal `"error"` return — this function never raises.
The second component is the `"status"` value of the returned dict.
(The `.error` branches of the inner saves re-save an inactive status,
which never violates the unique index, so they are unreachable; they
return the except-branch outcome for totality.) -/
def poll_and_process (s : SysState) (job : RJob) (out : PollOutcome)
    (validate : String → Except String ResearchResult)
    (gen : Except String String) (now : Nat) : SysState × String :=
  match out with
  | .exn e =>
      let jf := { job with status := .failed, error := e, completed_at := some now }
      match try_save s jf with
      | .ok s' => (s', "error")
      | .error _ => (s, "error")
  | .got (.completed text) =>
      match process_completed_job s job text validate gen now with
      | (s', _, .ok _) => (s', "completed")
      | (s', j', .error e) =>
          let jf := { j' with status := .failed, error := e,
                              completed_at := some now }
          match try_save s' jf with
          | .ok s'' => (s'', "error")
          | .error _ => (s', "error")
  | .got .failed =>
      let jf := { job with status := .failed, error := "Gemini status: failed",
                           completed_at := some now }
      match try_save s jf with
      | .ok s' => (s', "failed")
      | .error _ => (s, "error")
  | .got .cancelled =>
      let jf := { job with status := .failed, error := "Gemini status: cancelled",
                           completed_at := some now }
      match try_save s jf with
      | .ok s' => (s', "failed")
      | .error _ => (s, "error")
  | .got (.in_progress label) =>
      -- Still running/pending - ensure our status reflects this
      if job.status ≠ .running then
        match try_save s { job with status := .running } with
        | .ok s' => (s', label)
        | .error e =>
            -- caught by the outer except: record and return normally
            let jf := { job with status := .failed, error := e,
                                 completed_at := some now }
            match try_save s jf with
            | .ok s' => (s', "error")
            | .error _ => (s, "error")
      else (s, label)

/-- The `results` accumulator of `poll_research_jobs`. -/
structure PollCounts where
  processed : Nat := 0
  completed : Nat := 0
  failed : Nat := 0
deriving DecidableEq, Repr

/-- The `for job in running_jobs` loop of `poll_research_jobs`: each job
of the snapshot is polled independently (`ext` assigns each job id its
external outcome) and the counters are accumulated. -/
def poll_loop (ext : Nat → PollOutcome)
    (validate : String → Except String ResearchResult)
    (gen : Except String String) (now : Nat) :
    SysState → PollCounts → List RJob → SysState × PollCounts
  | s, acc, [] => (s, acc)
  | s, acc, job :: rest =>
      let acc1 := { acc with processed := acc.processed + 1 }
      let r := poll_and_process s job (ext job.id) validate gen now
      let acc2 :=
        if r.2 = "completed" then { acc1 with completed := acc1.completed + 1 }
        else if r.2 = "failed" ∨ r.2 = "error" then
          { acc1 with failed := acc1.failed + 1 }
        else acc1
      poll_loop ext validate gen now r.1 acc2 rest

/-- `poll_research_jobs()` of `tasks.py`: snapshot all `RUNNING` jobs
and poll each one. -/
def poll_research_jobs (s : SysState) (ext : Nat → PollOutcome)
    (validate : String → Except String ResearchResult)
    (gen : Except String String) (now : Nat) : SysState × PollCounts :=
  poll_loop ext validate gen now s {}
    (s.jobs.filter (fun j => j.status == .running))

/-- `reprocess_job(job_id)` of `tasks.py`: reject when no raw text is
stored (`if not job.raw_result`), otherwise re-run parsing and
reconciliation on the stored text; on success set `COMPLETED` with fresh
counts and a cleared error, on failure record `FAILED` with the error
and re-raise.  `raw_result` is never written here. -/
def reprocess_job (s : SysState) (job_id : Nat)
    (validate : String → Except String ResearchResult)
    (gen : Except String String) (now : Nat) : OpResult Nat :=
  match find_job s.jobs job_id with
  | none => { state := s, result := .error "ResearchJob matching query does not exist" }
  | some job =>
      if job.raw_result.getD "" = "" then
        { state := s, result := .error "Job has no raw_result to reprocess" }
      else
        match parse_research_result validate gen (job.raw_result.getD "") with
        | .ok result =>
            let j2 := { job with result := some result }
            let cr := create_leads s.crm job.city result.leads
            let s1 := { s with crm := cr.1 }
            let j3 := { j2 with leads_created := cr.2, status := .completed,
                                 error := "", completed_at := some now }
            match try_save s1 j3 with
            | .ok s2 => { state := s2, result := .ok cr.2 }
            | .error e =>
                -- the save raised; the except branch records and re-raises
                let jf := { j3 with status := .failed, error := e }
                match try_save s1 jf with
                | .ok s2 => { state := s2, result := .error e }
                | .error e2 => { state := s1, result := .error e2 }
        | .error e =>
            let jf := { job with status := .failed, error := e }
            match try_save s jf with
            | .ok s' => { state := s', result := .error e }
            | .error e2 => { state := s, result := .error e2 }

/-- `delete_job` of `controllers.py`: deletion is rejected while the job
is `PENDING` or `RUNNING`. -/
def delete_research_job (s : SysState) (job_id : Nat) : OpResult Unit :=
  match find_job s.jobs job_id with
  | none => { state := s, result := .error "Not Found" }
  | some job =>
      if job.status = .pending ∨ job.status = .running then
        { state := s, result := .error "Cannot delete job while active" }
      else
        { state := { s with jobs := s.jobs.filter (fun x => x.id != job_id) },
          result := .ok () }

/-- One transition of the pipeline: any entry point applied with any
parameters and any external outcomes. -/
inductive Step : SysState → SysState → Prop
  | create {s : SysState} (city : Nat) : Step s (create_research_job s city).state
  | queue {s : SysState} (city : Nat) : Step s (queue_research s city).state
  | run {s : SysState} (job_id : Nat) : Step s (run_research_job s job_id).state
  | start {s : SysState} (job_id : Nat) (create_out : Except String String)
      (now : Nat) : Step s (start_research_job s job_id create_out now).state
  | poll {s : SysState} (ext : Nat → PollOutcome)
      (validate : String → Except String ResearchResult)
      (gen : Except String String) (now : Nat) :
      Step s (poll_research_jobs s ext validate gen now).1
  | reprocess {s : SysState} (job_id : Nat)
      (validate : String → Except String ResearchResult)
      (gen : Except String String) (now : Nat) :
      Step s (reprocess_job s job_id validate gen now).state
  | delete {s : SysState} (job_id : Nat) :
      Step s (delete_research_job s job_id).state

/-- States reachable from the empty deployment through the pipeline's
entry points. -/
inductive Reachable : SysState → Prop
  | init : Reachable {}
  | step {s s' : SysState} : Reachable s → Step s s' → Reachable s'

/-- One clause of the claim's description of the matching step: "for
each field …, if the candidate's value is non-empty and some existing
lead's corresponding field equals it case-insensitively, that first hit
is returned".  Written from the claim's words, to be compared with
`find_by_contact` from the source. -/
def claim_contact_hit (leads : List Lead) (d : ResearchLead) (f : ContactField) :
    Option Lead :=
  if d.contact f ≠ "" then
    leads.find? (fun l => ieq (l.contact f) (d.contact f))
  else none

/-- The matching step as the claim words it: check email, phone,
instagram, telegram, website in this fixed order, first hit wins, then
fall back to a case-insensitive name + city match.  Written from the
claim's words, to be compared with `find_existing_lead` from the
source. -/
def find_existing_lead_claim (leads : List Lead) (d : ResearchLead) (city : Nat) :
    Option Lead :=
  match claim_contact_hit leads d .email with
  | some l => some l
  | none =>
      match claim_contact_hit leads d .phone with
      | some l => some l
      | none =>
          match claim_contact_hit leads d .instagram with
          | some l => some l
          | none =>
              match claim_contact_hit leads d .telegram with
              | some l => some l
              | none =>
                  match claim_contact_hit leads d .website with
                  | some l => some l
                  | none =>
                      leads.find? (fun l => ieq l.name d.name && l.city == some city)

/-- No two rows for the same city are simultaneously active. -/
def no_two_active (a b : RJob) : Prop :=
  ¬(a.city = b.city ∧ a.status.isActive = true ∧ b.status.isActive = true)

/-- Structural invariant of the job table: every row id is below the
fresh-id counter, row ids are unique, and no two rows of the same city
are simultaneously in an active status. -/
def jobs_ok (s : SysState) : Prop :=
  (∀ j ∈ s.jobs, j.id < s.next_job_id) ∧
  (s.jobs.map RJob.id).Nodup ∧
  s.jobs.Pairwise no_two_active

/-! ## Lemmas about the reconciler -/

theorem mget_mset_self (l : Lead) (f : MergeField) (v : String) :
    (l.mset f v).mget f = v := by
  cases f <;> rfl

theorem mget_mset_ne (l : Lead) {f g : MergeField} (h : g ≠ f) (v : String) :
    (l.mset g v).mget f = l.mget f := by
  cases f <;> cases g <;> simp_all [Lead.mset, Lead.mget]

theorem fill_blank_mget_ne {f g : MergeField} (l : Lead) (d : ResearchLead)
    (h : g ≠ f) : (fill_blank l d g).mget f = l.mget f := by
  unfold fill_blank
  split
  · exact mget_mset_ne l h _
  · rfl

theorem fill_blank_mget_self (l : Lead) (d : ResearchLead) (f : MergeField) :
    (fill_blank l d f).mget f =
      if l.mget f = "" ∧ d.mget f ≠ "" then d.mget f else l.mget f := by
  unfold fill_blank
  split <;> simp_all [mget_mset_self]

/-- Characterization of the merge loop over any field list (the source's
list visits each field once, but the statement is true in general). -/
theorem foldl_fill_mget (d : ResearchLead) (f : MergeField) :
    ∀ (fs : List MergeField) (l : Lead),
      (fs.foldl (fun acc g => fill_blank acc d g) l).mget f =
        if f ∈ fs ∧ l.mget f = "" ∧ d.mget f ≠ "" then d.mget f else l.mget f := by
  intro fs
  induction fs with
  | nil => intro l; simp
  | cons g fs ih =>
      intro l
      simp only [List.foldl_cons]
      rw [ih (fill_blank l d g)]
      by_cases hg : g = f
      · subst hg
        by_cases hc : l.mget g = "" ∧ d.mget g ≠ ""
        · have h1 : (fill_blank l d g).mget g = d.mget g := by
            rw [fill_blank_mget_self]; simp [hc]
          rw [h1]
          simp [hc, hc.2]
        · have h1 : (fill_blank l d g).mget g = l.mget g := by
            rw [fill_blank_mget_self]; simp [hc]
          rw [h1]
          simp only [List.mem_cons, true_or, true_and]
          rw [if_neg hc, if_neg]
          intro h2
          exact hc h2.2
      · rw [fill_blank_mget_ne l d hg]
        simp only [List.mem_cons]
        by_cases hf : f ∈ fs
        · simp [hf]
        · have hfg : f ≠ g := fun h => hg h.symm
          simp [hf, hfg]

/-- The merge branch of `_create_lead_from_research` field by field:
a non-empty field survives untouched, an empty one is filled exactly
when the candidate provides a value. -/
theorem merge_lead_mget (l : Lead) (d : ResearchLead) (f : MergeField) :
    (merge_lead l d).mget f =
      if l.mget f = "" ∧ d.mget f ≠ "" then d.mget f else l.mget f := by
  have hf : f ∈ merge_fields := by cases f <;> simp [merge_fields]
  rw [merge_lead, foldl_fill_mget d f merge_fields l]
  simp [hf]

theorem fill_blank_frame (l : Lead) (d : ResearchLead) (f : MergeField) :
    (fill_blank l d f).id = l.id ∧ (fill_blank l d f).name = l.name ∧
    (fill_blank l d f).city = l.city ∧
    (fill_blank l d f).lead_type = l.lead_type ∧
    (fill_blank l d f).temperature = l.temperature ∧
    (fill_blank l d f).source = l.source ∧
    (fill_blank l d f).status = l.status ∧
    (fill_blank l d f).value = l.value ∧
    (fill_blank l d f).last_contact = l.last_contact ∧
    (fill_blank l d f).tags = l.tags := by
  unfold fill_blank
  split
  · cases f <;> simp [Lead.mset]
  · simp

theorem merge_lead_frame (l : Lead) (d : ResearchLead) :
    (merge_lead l d).id = l.id ∧ (merge_lead l d).name = l.name ∧
    (merge_lead l d).city = l.city ∧
    (merge_lead l d).lead_type = l.lead_type ∧
    (merge_lead l d).temperature = l.temperature ∧
    (merge_lead l d).source = l.source ∧
    (merge_lead l d).status = l.status ∧
    (merge_lead l d).value = l.value ∧
    (merge_lead l d).last_contact = l.last_contact ∧
    (merge_lead l d).tags = l.tags := by
  rw [merge_lead]
  generalize merge_fields = fs
  induction fs generalizing l with
  | nil => simp
  | cons g fs ih =>
      simp only [List.foldl_cons]
      have h := fill_blank_frame l d g
      have h2 := ih (fill_blank l d g)
      obtain ⟨e1, e2, e3, e4, e5, e6, e7, e8, e9, e10⟩ := h
      obtain ⟨f1, f2, f3, f4, f5, f6, f7, f8, f9, f10⟩ := h2
      exact ⟨f1.trans e1, f2.trans e2, f3.trans e3, f4.trans e4, f5.trans e5,
             f6.trans e6, f7.trans e7, f8.trans e8, f9.trans e9, f10.trans e10⟩

theorem add_tag_frame (l : Lead) (t : Nat) :
    (l.add_tag t).id = l.id ∧ (l.add_tag t).name = l.name ∧
    (l.add_tag t).city = l.city ∧ (l.add_tag t).lead_type = l.lead_type ∧
    (l.add_tag t).temperature = l.temperature ∧
    (l.add_tag t).source = l.source ∧ (l.add_tag t).status = l.status ∧
    (l.add_tag t).value = l.value ∧
    (l.add_tag t).last_contact = l.last_contact ∧
    (∀ f : MergeField, (l.add_tag t).mget f = l.mget f) := by
  unfold Lead.add_tag
  split
  · simp
  · refine ⟨rfl, rfl, rfl, rfl, rfl, rfl, rfl, rfl, rfl, ?_⟩
    intro f
    cases f <;> rfl

theorem mem_add_tag (l : Lead) (t u : Nat) :
    u ∈ (l.add_tag t).tags ↔ u ∈ l.tags ∨ u = t := by
  unfold Lead.add_tag
  split <;> rename_i h
  · constructor
    · exact fun hu => Or.inl hu
    · rintro (hu | rfl)
      · exact hu
      · exact h
  · simp

theorem get_or_create_tag_leads (s : CrmState) (n : String) :
    (get_or_create_tag s n).2.leads = s.leads := by
  unfold get_or_create_tag
  split <;> rfl

theorem get_or_create_lead_type_leads (s : CrmState) (n : String) :
    (get_or_create_lead_type s n).2.leads = s.leads := by
  unfold get_or_create_lead_type
  split <;> rfl

theorem add_research_tags_leads :
    ∀ (ns : List String) (s : CrmState) (l : Lead),
      (add_research_tags s l ns).1.leads = s.leads := by
  intro ns
  induction ns with
  | nil => intro s l; rfl
  | cons n ns ih =>
      intro s l
      simp only [add_research_tags]
      rw [ih, get_or_create_tag_leads]

theorem add_research_tags_frame :
    ∀ (ns : List String) (s : CrmState) (l : Lead),
      (add_research_tags s l ns).2.id = l.id ∧
      (add_research_tags s l ns).2.name = l.name ∧
      (add_research_tags s l ns).2.city = l.city ∧
      (add_research_tags s l ns).2.lead_type = l.lead_type ∧
      (add_research_tags s l ns).2.temperature = l.temperature ∧
      (add_research_tags s l ns).2.source = l.source ∧
      (add_research_tags s l ns).2.status = l.status ∧
      (add_research_tags s l ns).2.value = l.value ∧
      (add_research_tags s l ns).2.last_contact = l.last_contact ∧
      (∀ f : MergeField, (add_research_tags s l ns).2.mget f = l.mget f) := by
  intro ns
  induction ns with
  | nil =>
      intro s l
      exact ⟨rfl, rfl, rfl, rfl, rfl, rfl, rfl, rfl, rfl, fun _ => rfl⟩
  | cons n ns ih =>
      intro s l
      simp only [add_research_tags]
      have h := add_tag_frame l (get_or_create_tag s n).1
      have h2 := ih (get_or_create_tag s n).2 (l.add_tag (get_or_create_tag s n).1)
      obtain ⟨e1, e2, e3, e4, e5, e6, e7, e8, e9, e10⟩ := h
      obtain ⟨f1, f2, f3, f4, f5, f6, f7, f8, f9, f10⟩ := h2
      exact ⟨f1.trans e1, f2.trans e2, f3.trans e3, f4.trans e4, f5.trans e5,
             f6.trans e6, f7.trans e7, f8.trans e8, f9.trans e9,
             fun f => (f10 f).trans (e10 f)⟩

theorem add_research_tags_mem :
    ∀ (ns : List String) (s : CrmState) (l : Lead) (u : Nat),
      u ∈ (add_research_tags s l ns).2.tags ↔
        u ∈ l.tags ∨ u ∈ resolved_tag_ids s ns := by
  intro ns
  induction ns with
  | nil => intro s l u; simp [add_research_tags, resolved_tag_ids]
  | cons n ns ih =>
      intro s l u
      simp only [add_research_tags, resolved_tag_ids]
      rw [ih, mem_add_tag]
      simp only [List.mem_cons]
      tauto

theorem merged_lead_mget_eq (lead : Lead) (d : ResearchLead) (ltype : Option Nat)
    (f : MergeField) :
    (merged_lead lead d ltype).mget f = (merge_lead lead d).mget f := by
  unfold merged_lead
  generalize merge_lead lead d = m
  rcases hml : m.lead_type with _ | t <;> rcases ltype with _ | u <;>
    simp only [hml] <;> rfl

theorem merged_lead_lead_type (lead : Lead) (d : ResearchLead) (ltype : Option Nat) :
    (merged_lead lead d ltype).lead_type =
      match lead.lead_type, ltype with
      | none, some tid => some tid
      | _, _ => lead.lead_type := by
  have hm := (merge_lead_frame lead d).2.2.2.1
  unfold merged_lead
  generalize merge_lead lead d = m at hm ⊢
  rw [hm]
  rcases hl : lead.lead_type with _ | t <;> rcases ltype with _ | u <;>
    simp only [hl] <;> first | rfl | exact hm.trans hl

theorem merged_lead_frame (lead : Lead) (d : ResearchLead) (ltype : Option Nat) :
    (merged_lead lead d ltype).id = lead.id ∧
    (merged_lead lead d ltype).name = lead.name ∧
    (merged_lead lead d ltype).city = lead.city ∧
    (merged_lead lead d ltype).temperature = lead.temperature ∧
    (merged_lead lead d ltype).source = lead.source ∧
    (merged_lead lead d ltype).status = lead.status ∧
    (merged_lead lead d ltype).value = lead.value ∧
    (merged_lead lead d ltype).last_contact = lead.last_contact ∧
    (merged_lead lead d ltype).tags = lead.tags := by
  obtain ⟨e1, e2, e3, _, e5, e6, e7, e8, e9, e10⟩ := merge_lead_frame lead d
  unfold merged_lead
  generalize merge_lead lead d = m at e1 e2 e3 e5 e6 e7 e8 e9 e10 ⊢
  rcases hml : m.lead_type with _ | t <;> rcases ltype with _ | u <;>
    simp only [hml] <;> exact ⟨e1, e2, e3, e5, e6, e7, e8, e9, e10⟩

theorem research_lead_type_leads (s : CrmState) (d : ResearchLead) :
    (research_lead_type s d).2.leads = s.leads := by
  unfold research_lead_type
  split
  · exact get_or_create_lead_type_leads s d.lead_type
  · rfl

/-- The matched branch of `_create_lead_from_research`, as an equation. -/
theorem create_lead_matched {s : CrmState} {d : ResearchLead} {city : Nat}
    {lead : Lead} (hfind : find_existing_lead s.leads d city = some lead) :
    create_lead_from_research s d city =
      ((add_research_tags
          { (research_lead_type s d).2 with
              leads := save_lead (research_lead_type s d).2.leads
                (merged_lead lead d (research_lead_type s d).1) }
          (merged_lead lead d (research_lead_type s d).1) d.tags).2,
       { (add_research_tags
            { (research_lead_type s d).2 with
                leads := save_lead (research_lead_type s d).2.leads
                  (merged_lead lead d (research_lead_type s d).1) }
            (merged_lead lead d (research_lead_type s d).1) d.tags).1 with
          leads := save_lead
            (add_research_tags
              { (research_lead_type s d).2 with
                  leads := save_lead (research_lead_type s d).2.leads
                    (merged_lead lead d (research_lead_type s d).1) }
              (merged_lead lead d (research_lead_type s d).1) d.tags).1.leads
            (add_research_tags
              { (research_lead_type s d).2 with
                  leads := save_lead (research_lead_type s d).2.leads
                    (merged_lead lead d (research_lead_type s d).1) }
              (merged_lead lead d (research_lead_type s d).1) d.tags).2 }) := by
  unfold create_lead_from_research
  rw [hfind]

/-- **C1** For every existing lead matched by reconciliation and every
field F in {company, email, phone, instagram, telegram, website, notes}:
if the lead's current F is non-empty, reconciling a candidate with any
(possibly different) non-empty value for F leaves the lead's F
unchanged; if the lead's F is empty and the candidate's F is non-empty,
the lead's F becomes the candidate's value.  The lead-type is assigned
only when the lead has none and the candidate provides one, and is never
replaced. -/
theorem merge_fills_blanks_only (s : CrmState) (d : ResearchLead) (city : Nat)
    (lead : Lead) (hfind : find_existing_lead s.leads d city = some lead) :
    (∀ f : MergeField, lead.mget f ≠ "" →
        (create_lead_from_research s d city).1.mget f = lead.mget f) ∧
    (∀ f : MergeField, lead.mget f = "" → d.mget f ≠ "" →
        (create_lead_from_research s d city).1.mget f = d.mget f) ∧
    (∀ t : Nat, lead.lead_type = some t →
        (create_lead_from_research s d city).1.lead_type = some t) ∧
    (lead.lead_type = none → d.lead_type = "" →
        (create_lead_from_research s d city).1.lead_type = none) ∧
    (lead.lead_type = none → d.lead_type ≠ "" →
        (create_lead_from_research s d city).1.lead_type =
          some (get_or_create_lead_type s d.lead_type).1) := by
  rw [create_lead_matched hfind]
  have hframe := add_research_tags_frame d.tags
    { (research_lead_type s d).2 with
        leads := save_lead (research_lead_type s d).2.leads
          (merged_lead lead d (research_lead_type s d).1) }
    (merged_lead lead d (research_lead_type s d).1)
  obtain ⟨-, -, -, hlt, -, -, -, -, -, hmg⟩ := hframe
  refine ⟨?_, ?_, ?_, ?_, ?_⟩
  · intro f hf
    rw [hmg f, merged_lead_mget_eq, merge_lead_mget]
    simp [hf]
  · intro f hf hd
    rw [hmg f, merged_lead_mget_eq, merge_lead_mget]
    simp [hf, hd]
  · intro t ht
    rw [hlt, merged_lead_lead_type, ht]
  · intro ht hd
    rw [hlt, merged_lead_lead_type, ht]
    unfold research_lead_type
    simp [hd]
  · intro ht hd
    rw [hlt, merged_lead_lead_type, ht]
    unfold research_lead_type
    simp [hd]

/-- Concrete instance of `merge_fills_blanks_only`: an existing lead
named "Acme" in city 3 with company "OldCo" and no email, reconciled
against a candidate providing company "NewCo" and an email: the company
survives, the email is filled. -/
theorem merge_fills_blanks_only_witness :
    find_existing_lead
        [{ id := 5, name := "Acme", company := "OldCo", city := some 3 }]
        { name := "Acme", company := "NewCo", email := "a@x.com" } 3 =
      some { id := 5, name := "Acme", company := "OldCo", city := some 3 } ∧
    ({ id := 5, name := "Acme", company := "OldCo",
       city := some 3 } : Lead).mget .company ≠ "" ∧
    (create_lead_from_research
        { leads := [{ id := 5, name := "Acme", company := "OldCo", city := some 3 }],
          next_lead_id := 6 }
        { name := "Acme", company := "NewCo", email := "a@x.com" } 3).1.mget
        .company = "OldCo" ∧
    (create_lead_from_research
        { leads := [{ id := 5, name := "Acme", company := "OldCo", city := some 3 }],
          next_lead_id := 6 }
        { name := "Acme", company := "NewCo", email := "a@x.com" } 3).1.mget
        .email = "a@x.com" := by
  refine ⟨by decide, by decide, ?_, ?_⟩
  · exact (merge_fills_blanks_only
      { leads := [{ id := 5, name := "Acme", company := "OldCo", city := some 3 }],
        next_lead_id := 6 }
      { name := "Acme", company := "NewCo", email := "a@x.com" } 3
      { id := 5, name := "Acme", company := "OldCo", city := some 3 }
      (by decide)).1 .company (by decide)
  · exact (merge_fills_blanks_only
      { leads := [{ id := 5, name := "Acme", company := "OldCo", city := some 3 }],
        next_lead_id := 6 }
      { name := "Acme", company := "NewCo", email := "a@x.com" } 3
      { id := 5, name := "Acme", company := "OldCo", city := some 3 }
      (by decide)).2.1 .email (by decide) (by decide)

/-- Two consecutive saves of rows carrying the same id (the merged lead
and then its tag-augmented version) collapse into one update. -/
theorem save_lead_save_lead (L : List Lead) (a b : Lead) (h : a.id = b.id) :
    save_lead (save_lead L a) b = L.map (fun x => if x.id = a.id then b else x) := by
  unfold save_lead
  rw [List.map_map]
  refine List.map_congr_left ?_
  intro x _
  by_cases hx : x.id = a.id
  · simp [Function.comp, hx, h]
  · have hxb : x.id ≠ b.id := fun hc => hx (hc.trans h.symm)
    simp [Function.comp, hx, hxb]

/-- **C10** When reconciliation matches an existing lead, it never
modifies that lead's name, city, temperature, source, status, value, or
last-contact fields, and the only row of the lead table that changes is
the matched one; in particular a candidate matched by a contact field
keeps the matched lead's existing city even if the candidate's target
city differs. -/
theorem reconcile_frame (s : CrmState) (d : ResearchLead) (city : Nat)
    (lead : Lead) (hfind : find_existing_lead s.leads d city = some lead) :
    (create_lead_from_research s d city).1.id = lead.id ∧
    (create_lead_from_research s d city).1.name = lead.name ∧
    (create_lead_from_research s d city).1.city = lead.city ∧
    (create_lead_from_research s d city).1.temperature = lead.temperature ∧
    (create_lead_from_research s d city).1.source = lead.source ∧
    (create_lead_from_research s d city).1.status = lead.status ∧
    (create_lead_from_research s d city).1.value = lead.value ∧
    (create_lead_from_research s d city).1.last_contact = lead.last_contact ∧
    (create_lead_from_research s d city).2.leads =
      s.leads.map (fun x =>
        if x.id = lead.id then (create_lead_from_research s d city).1 else x) := by
  rw [create_lead_matched hfind]
  set A := research_lead_type s d with hA
  set M := merged_lead lead d A.1 with hM
  set s2 : CrmState := { A.2 with leads := save_lead A.2.leads M } with hs2
  set R := add_research_tags s2 M d.tags with hR
  obtain ⟨g1, g2, g3, _, g5, g6, g7, g8, g9, _⟩ := add_research_tags_frame d.tags s2 M
  obtain ⟨m1, m2, m3, m5, m6, m7, m8, m9, _⟩ := merged_lead_frame lead d A.1
  refine ⟨g1.trans m1, g2.trans m2, g3.trans m3, g5.trans m5, g6.trans m6,
    g7.trans m7, g8.trans m8, g9.trans m9, ?_⟩
  have hfin : R.1.leads = save_lead s.leads M := by
    rw [hR, add_research_tags_leads]
    show save_lead A.2.leads M = save_lead s.leads M
    rw [hA, research_lead_type_leads]
  show save_lead R.1.leads R.2 = s.leads.map (fun x => if x.id = lead.id then R.2 else x)
  rw [hfin, save_lead_save_lead s.leads M R.2 g1.symm]
  have m1' : M.id = lead.id := m1
  simp only [m1']

/-- Concrete instance of `reconcile_frame`: the "OldCo" lead of city 3
matched by a candidate aimed at city 7 via its email keeps its city. -/
theorem reconcile_frame_witness :
    find_existing_lead
        [{ id := 5, name := "Acme", email := "a@x.com", company := "OldCo",
           city := some 3 }]
        { name := "Other", email := "A@X.com" } 7 =
      some { id := 5, name := "Acme", email := "a@x.com", company := "OldCo",
             city := some 3 } ∧
    (create_lead_from_research
        { leads := [{ id := 5, name := "Acme", email := "a@x.com",
                      company := "OldCo", city := some 3 }], next_lead_id := 6 }
        { name := "Other", email := "A@X.com" } 7).1.city = some 3 := by
  refine ⟨by decide, ?_⟩
  exact ((reconcile_frame
      { leads := [{ id := 5, name := "Acme", email := "a@x.com",
                    company := "OldCo", city := some 3 }], next_lead_id := 6 }
      { name := "Other", email := "A@X.com" } 7
      { id := 5, name := "Acme", email := "a@x.com", company := "OldCo",
        city := some 3 }
      (by decide)).2.2.1).trans rfl

theorem get_or_create_tag_frame (s : CrmState) (n : String) :
    (get_or_create_tag s n).2.lead_types = s.lead_types ∧
    (get_or_create_tag s n).2.next_lead_type_id = s.next_lead_type_id ∧
    (get_or_create_tag s n).2.next_lead_id = s.next_lead_id := by
  unfold get_or_create_tag
  cases s.tags.find? (fun p => ieq p.2 n) <;> exact ⟨rfl, rfl, rfl⟩

theorem get_or_create_lead_type_frame (s : CrmState) (n : String) :
    (get_or_create_lead_type s n).2.tags = s.tags ∧
    (get_or_create_lead_type s n).2.next_tag_id = s.next_tag_id ∧
    (get_or_create_lead_type s n).2.next_lead_id = s.next_lead_id := by
  unfold get_or_create_lead_type
  cases s.lead_types.find? (fun p => ieq p.2 n) <;> exact ⟨rfl, rfl, rfl⟩

theorem research_lead_type_frame (s : CrmState) (d : ResearchLead) :
    (research_lead_type s d).2.tags = s.tags ∧
    (research_lead_type s d).2.next_tag_id = s.next_tag_id ∧
    (research_lead_type s d).2.next_lead_id = s.next_lead_id := by
  unfold research_lead_type
  split
  · exact get_or_create_lead_type_frame s d.lead_type
  · exact ⟨rfl, rfl, rfl⟩

/-- Tag resolution only reads the tag table and the tag id counter, so
two states agreeing there resolve the same ids. -/
theorem resolved_tag_ids_congr :
    ∀ (ns : List String) (s s' : CrmState),
      s.tags = s'.tags → s.next_tag_id = s'.next_tag_id →
      resolved_tag_ids s ns = resolved_tag_ids s' ns := by
  intro ns
  induction ns with
  | nil => intro s s' _ _; rfl
  | cons n ns ih =>
      intro s s' ht hn
      simp only [resolved_tag_ids]
      unfold get_or_create_tag
      rw [ht, hn]
      cases hf : s'.tags.find? (fun p => ieq p.2 n) <;> simp only [hf]
      · congr 1
        exact ih _ _ rfl rfl
      · congr 1
        exact ih _ _ ht hn

/-- The new-lead branch of `_create_lead_from_research`, as an equation. -/
theorem create_lead_new {s : CrmState} {d : ResearchLead} {city : Nat}
    (hfind : find_existing_lead s.leads d city = none) :
    create_lead_from_research s d city =
      ((add_research_tags
          { (research_lead_type s d).2 with
              leads := new_research_lead (research_lead_type s d).1
                  (temp_map d.temperature) d city
                  (research_lead_type s d).2.next_lead_id ::
                (research_lead_type s d).2.leads,
              next_lead_id := (research_lead_type s d).2.next_lead_id + 1 }
          (new_research_lead (research_lead_type s d).1 (temp_map d.temperature)
            d city (research_lead_type s d).2.next_lead_id) d.tags).2,
       { (add_research_tags
            { (research_lead_type s d).2 with
                leads := new_research_lead (research_lead_type s d).1
                    (temp_map d.temperature) d city
                    (research_lead_type s d).2.next_lead_id ::
                  (research_lead_type s d).2.leads,
                next_lead_id := (research_lead_type s d).2.next_lead_id + 1 }
            (new_research_lead (research_lead_type s d).1 (temp_map d.temperature)
              d city (research_lead_type s d).2.next_lead_id) d.tags).1 with
          leads := save_lead
            (add_research_tags
              { (research_lead_type s d).2 with
                  leads := new_research_lead (research_lead_type s d).1
                      (temp_map d.temperature) d city
                      (research_lead_type s d).2.next_lead_id ::
                    (research_lead_type s d).2.leads,
                  next_lead_id := (research_lead_type s d).2.next_lead_id + 1 }
              (new_research_lead (research_lead_type s d).1 (temp_map d.temperature)
                d city (research_lead_type s d).2.next_lead_id) d.tags).1.leads
            (add_research_tags
              { (research_lead_type s d).2 with
                  leads := new_research_lead (research_lead_type s d).1
                      (temp_map d.temperature) d city
                      (research_lead_type s d).2.next_lead_id ::
                    (research_lead_type s d).2.leads,
                  next_lead_id := (research_lead_type s d).2.next_lead_id + 1 }
              (new_research_lead (research_lead_type s d).1 (temp_map d.temperature)
                d city (research_lead_type s d).2.next_lead_id) d.tags).2 }) := by
  unfold create_lead_from_research
  rw [hfind]

/-- **C6** For every candidate lead and every matched or newly created
lead, after reconciliation the lead's tag set equals the union of its
prior tag set and the candidate's tag names resolved case-insensitively
(auto-creating missing tags); no tag is ever removed by reconciliation. -/
theorem tag_additivity (s : CrmState) (d : ResearchLead) (city : Nat) :
    (∀ lead : Lead, find_existing_lead s.leads d city = some lead →
      (∀ t ∈ lead.tags, t ∈ (create_lead_from_research s d city).1.tags) ∧
      (∀ t : Nat, t ∈ (create_lead_from_research s d city).1.tags ↔
        t ∈ lead.tags ∨ t ∈ resolved_tag_ids s d.tags)) ∧
    (find_existing_lead s.leads d city = none →
      ∀ t : Nat, t ∈ (create_lead_from_research s d city).1.tags ↔
        t ∈ resolved_tag_ids s d.tags) := by
  constructor
  · intro lead hfind
    rw [create_lead_matched hfind]
    set A := research_lead_type s d with hA
    set M := merged_lead lead d A.1 with hM
    set s2 : CrmState := { A.2 with leads := save_lead A.2.leads M } with hs2
    have hmem := add_research_tags_mem d.tags s2 M
    have htags : M.tags = lead.tags := (merged_lead_frame lead d A.1).2.2.2.2.2.2.2.2
    have hres : resolved_tag_ids s2 d.tags = resolved_tag_ids s d.tags := by
      refine resolved_tag_ids_congr d.tags s2 s ?_ ?_
      · show A.2.tags = s.tags
        exact (research_lead_type_frame s d).1
      · show A.2.next_tag_id = s.next_tag_id
        exact (research_lead_type_frame s d).2.1
    constructor
    · intro t ht
      rw [hmem t, hres]
      refine Or.inl ?_
      rw [htags]
      exact ht
    · intro t
      rw [hmem t, hres, htags]
  · intro hfind t
    rw [create_lead_new hfind]
    set A := research_lead_type s d with hA
    set L0 := new_research_lead A.1 (temp_map d.temperature) d city
      A.2.next_lead_id with hL0
    set s2 : CrmState :=
      { A.2 with
          leads := L0 :: A.2.leads,
          next_lead_id := A.2.next_lead_id + 1 } with hs2
    have hmem := add_research_tags_mem d.tags s2 L0
    have hres : resolved_tag_ids s2 d.tags = resolved_tag_ids s d.tags := by
      refine resolved_tag_ids_congr d.tags s2 s ?_ ?_
      · show A.2.tags = s.tags
        exact (research_lead_type_frame s d).1
      · show A.2.next_tag_id = s.next_tag_id
        exact (research_lead_type_frame s d).2.1
    rw [hmem t, hres]
    have hempty : L0.tags = [] := rfl
    rw [hempty]
    simp

/-- Concrete instance of `tag_additivity`: the matched lead keeps its
prior tag 9 and gains the resolved ids of "Kink" (existing tag 4,
case-insensitively) and "Party" (created as 10). -/
theorem tag_additivity_witness :
    find_existing_lead
        [{ id := 5, name := "Acme", city := some 3, tags := [9] }]
        { name := "Acme", tags := ["Kink", "Party"] } 3 =
      some { id := 5, name := "Acme", city := some 3, tags := [9] } ∧
    (9 ∈ (create_lead_from_research
        { leads := [{ id := 5, name := "Acme", city := some 3, tags := [9] }],
          tags := [(4, "kink")], next_lead_id := 6, next_tag_id := 10 }
        { name := "Acme", tags := ["Kink", "Party"] } 3).1.tags) ∧
    (4 ∈ (create_lead_from_research
        { leads := [{ id := 5, name := "Acme", city := some 3, tags := [9] }],
          tags := [(4, "kink")], next_lead_id := 6, next_tag_id := 10 }
        { name := "Acme", tags := ["Kink", "Party"] } 3).1.tags) := by
  refine ⟨by decide, ?_, ?_⟩
  · exact ((tag_additivity
      { leads := [{ id := 5, name := "Acme", city := some 3, tags := [9] }],
        tags := [(4, "kink")], next_lead_id := 6, next_tag_id := 10 }
      { name := "Acme", tags := ["Kink", "Party"] } 3).1
      { id := 5, name := "Acme", city := some 3, tags := [9] } (by decide)).1
      9 (by decide)
  · exact ((tag_additivity
      { leads := [{ id := 5, name := "Acme", city := some 3, tags := [9] }],
        tags := [(4, "kink")], next_lead_id := 6, next_tag_id := 10 }
      { name := "Acme", tags := ["Kink", "Party"] } 3).1
      { id := 5, name := "Acme", city := some 3, tags := [9] } (by decide)).2
      4 |>.mpr (Or.inr (by decide))

theorem add_research_tags_next_lead_id :
    ∀ (ns : List String) (s : CrmState) (l : Lead),
      (add_research_tags s l ns).1.next_lead_id = s.next_lead_id := by
  intro ns
  induction ns with
  | nil => intro s l; rfl
  | cons n ns ih =>
      intro s l
      simp only [add_research_tags]
      rw [ih, (get_or_create_tag_frame s n).2.2]

theorem find_by_contact_cons (leads : List Lead) (d : ResearchLead)
    (f : ContactField) (fs : List ContactField) :
    find_by_contact leads d (f :: fs) =
      match claim_contact_hit leads d f with
      | some l => some l
      | none => find_by_contact leads d fs := by
  simp only [find_by_contact, claim_contact_hit]
  by_cases h : d.contact f ≠ ""
  · simp only [if_pos h]
  · simp only [if_neg h]

theorem find_existing_lead_eq_claim (leads : List Lead) (d : ResearchLead)
    (city : Nat) :
    find_existing_lead leads d city = find_existing_lead_claim leads d city := by
  unfold find_existing_lead find_existing_lead_claim contact_fields
  rw [find_by_contact_cons, find_by_contact_cons, find_by_contact_cons,
      find_by_contact_cons, find_by_contact_cons]
  rcases claim_contact_hit leads d .email with _ | l1 <;>
    rcases claim_contact_hit leads d .phone with _ | l2 <;>
    rcases claim_contact_hit leads d .instagram with _ | l3 <;>
    rcases claim_contact_hit leads d .telegram with _ | l4 <;>
    rcases claim_contact_hit leads d .website with _ | l5 <;> rfl

/-- **C4** The matching step of reconciliation is deterministic (it is a
function of the store and candidate) and checks, in this fixed order,
the candidate's email, phone, instagram, telegram, website — a non-empty
value whose case-insensitive lookup hits an existing lead wins, first
hit returned — then falls back to a case-insensitive name + same-city
match; with no match at all, a new lead with a fresh id is created. -/
theorem matching_order (s : CrmState) (d : ResearchLead) (city : Nat) :
    find_existing_lead s.leads d city = find_existing_lead_claim s.leads d city ∧
    (find_existing_lead s.leads d city = none →
      (create_lead_from_research s d city).1.id = s.next_lead_id ∧
      (create_lead_from_research s d city).2.next_lead_id = s.next_lead_id + 1) := by
  refine ⟨find_existing_lead_eq_claim s.leads d city, ?_⟩
  intro hfind
  rw [create_lead_new hfind]
  set A := research_lead_type s d with hA
  set L0 := new_research_lead A.1 (temp_map d.temperature) d city
    A.2.next_lead_id with hL0
  set s2 : CrmState :=
    { A.2 with
        leads := L0 :: A.2.leads,
        next_lead_id := A.2.next_lead_id + 1 } with hs2
  constructor
  · have h1 := (add_research_tags_frame d.tags s2 L0).1
    have h2 : L0.id = A.2.next_lead_id := rfl
    have h3 : A.2.next_lead_id = s.next_lead_id := (research_lead_type_frame s d).2.2
    exact h1.trans (h2.trans h3)
  · show (add_research_tags s2 L0 d.tags).1.next_lead_id = s.next_lead_id + 1
    rw [add_research_tags_next_lead_id]
    show A.2.next_lead_id + 1 = s.next_lead_id + 1
    rw [(research_lead_type_frame s d).2.2]

/-- Concrete instance of `matching_order`: a candidate whose phone
matches lead 1 and whose email matches lead 2 resolves to lead 2,
because email is checked before phone. -/
theorem matching_order_witness :
    find_existing_lead_claim
        [{ id := 1, name := "P", phone := "123" },
         { id := 2, name := "Q", email := "a@x.com" }]
        { name := "R", email := "A@X.com", phone := "123" } 0 =
      some { id := 2, name := "Q", email := "a@x.com" } ∧
    find_existing_lead
        [{ id := 1, name := "P", phone := "123" },
         { id := 2, name := "Q", email := "a@x.com" }]
        { name := "R", email := "A@X.com", phone := "123" } 0 =
      some { id := 2, name := "Q", email := "a@x.com" } := by
  refine ⟨by decide, ?_⟩
  exact ((matching_order
      { leads := [{ id := 1, name := "P", phone := "123" },
                  { id := 2, name := "Q", email := "a@x.com" }] }
      { name := "R", email := "A@X.com", phone := "123" } 0).1).trans (by decide)

/-! ## Lemmas about the parser -/

theorem find_marker_spec (needle : List Char) :
    ∀ (hay : List Char) (i : Nat), find_marker needle hay = some i →
      needle.isPrefixOf (hay.drop i) = true := by
  intro hay
  induction hay with
  | nil =>
      intro i h
      unfold find_marker at h
      split at h
      · rename_i hn
        cases h
        simp [hn]
      · cases h
  | cons c rest ih =>
      intro i h
      unfold find_marker at h
      split at h
      · rename_i hp
        cases h
        simpa using hp
      · rcases hrec : find_marker needle rest with _ | j
        · rw [hrec] at h; cases h
        · rw [hrec] at h
          simp only [Option.map_some'] at h
          cases h
          simpa using ih j hrec

/-- Strategy 2 really extracts the suffix of the text that starts at the
first occurrence of the leads marker. -/
theorem extract_from_marker_spec (text frag : String)
    (h : extract_from_marker text = some frag) :
    ∃ pre : List Char, text.data = pre ++ frag.data ∧
      leads_marker.data.isPrefixOf frag.data = true := by
  unfold extract_from_marker at h
  rcases hf : find_marker leads_marker.data text.data with _ | i
  · rw [hf] at h; cases h
  · rw [hf] at h
    cases h
    refine ⟨text.data.take i, ?_, ?_⟩
    · exact (List.take_append_drop i text.data).symm
    · exact find_marker_spec leads_marker.data text.data i hf

/-- **C3** `parse` applies three strategies in order with first success
winning: (1) the whole text against the schema validator; (2) when the
literal `"leads": [` marker occurs, the suffix from that marker, fence-
and whitespace-stripped and wrapped in braces; (3) the fallback model
call.  An empty fallback response is a typed error, a strategy-3 failure
is wrapped in a typed parse failure naming the underlying cause, and the
only failure `parse` ever produces is that wrapped error. -/
theorem parser_layering (validate : String → Except String ResearchResult)
    (gen : Except String String) (text : String) :
    (∀ r, validate text = .ok r →
        parse_research_result validate gen text = .ok r) ∧
    (∀ e frag r, validate text = .error e →
        extract_from_marker text = some frag →
        validate ("\x7b" ++ strip_fence frag ++ "\x7d") = .ok r →
        parse_research_result validate gen text = .ok r) ∧
    (∀ frag, extract_from_marker text = some frag →
        ∃ pre : List Char, text.data = pre ++ frag.data ∧
          leads_marker.data.isPrefixOf frag.data = true) ∧
    (∀ e r, validate text = .error e → extract_from_marker text = none →
        parse_with_gemini_fallback validate gen = .ok r →
        parse_research_result validate gen text = .ok r) ∧
    (∀ e e2, validate text = .error e → extract_from_marker text = none →
        parse_with_gemini_fallback validate gen = .error e2 →
        parse_research_result validate gen text =
          .error ("Could not parse research result after trying all strategies: "
            ++ e2)) ∧
    (∀ e frag e1 e2, validate text = .error e →
        extract_from_marker text = some frag →
        validate ("\x7b" ++ strip_fence frag ++ "\x7d") = .error e1 →
        parse_with_gemini_fallback validate gen = .error e2 →
        parse_research_result validate gen text =
          .error ("Could not parse research result after trying all strategies: "
            ++ e2)) ∧
    (gen = .ok "" → parse_with_gemini_fallback validate gen =
        .error "Gemini returned empty response when parsing raw text") ∧
    (∀ e', parse_research_result validate gen text = .error e' →
        ∃ cause, e' = "Could not parse research result after trying all strategies: "
            ++ cause ∧
          parse_with_gemini_fallback validate gen = .error cause) := by
  refine ⟨?_, ?_, ?_, ?_, ?_, ?_, ?_, ?_⟩
  · intro r h
    unfold parse_research_result
    rw [h]
  · intro e frag r hv hx hv2
    unfold parse_research_result
    rw [hv]
    simp only [hx, hv2]
  · intro frag hx
    exact extract_from_marker_spec text frag hx
  · intro e r hv hx hfb
    unfold parse_research_result
    rw [hv]
    simp only [hx, hfb]
  · intro e e2 hv hx hfb
    unfold parse_research_result
    rw [hv]
    simp only [hx, hfb]
  · intro e frag e1 e2 hv hx hv2 hfb
    unfold parse_research_result
    rw [hv]
    simp only [hx, hv2, hfb]
  · intro hg
    unfold parse_with_gemini_fallback
    rw [hg]
    rfl
  · intro e' h
    unfold parse_research_result at h
    rcases hv : validate text with ev | r
    · rw [hv] at h
      rcases hx : extract_from_marker text with _ | frag
      · simp only [hx] at h
        rcases hfb : parse_with_gemini_fallback validate gen with efb | rfb
        · rw [hfb] at h
          cases h
          exact ⟨efb, rfl, rfl⟩
        · rw [hfb] at h
          cases h
      · simp only [hx] at h
        rcases hv2 : validate ("\x7b" ++ strip_fence frag ++ "\x7d") with e2 | r2
        · rw [hv2] at h
          rcases hfb : parse_with_gemini_fallback validate gen with efb | rfb
          · rw [hfb] at h
            cases h
            exact ⟨efb, rfl, rfl⟩
          · rw [hfb] at h
            cases h
        · rw [hv2] at h
          cases h
    · rw [hv] at h
      cases h

/-- Concrete instance of `parser_layering`: a payload with a prose
preamble, the leads marker, and a trailing code fence parses via
strategy 2 into the empty-leads result. -/
theorem parser_layering_witness :
    ((fun s => if s = "\x7b\"leads\": []\x7d" then
        (Except.ok (⟨[]⟩ : ResearchResult)) else .error "invalid json")
      "preamble\n\"leads\": []\n```" = .error "invalid json") ∧
    (extract_from_marker "preamble\n\"leads\": []\n```" =
      some "\"leads\": []\n```") ∧
    parse_research_result
        (fun s => if s = "\x7b\"leads\": []\x7d" then
          (Except.ok (⟨[]⟩ : ResearchResult)) else .error "invalid json")
        (.error "gen unavailable") "preamble\n\"leads\": []\n```" =
      .ok (⟨[]⟩ : ResearchResult) := by
  refine ⟨by rfl, by decide, ?_⟩
  exact (parser_layering
      (fun s => if s = "\x7b\"leads\": []\x7d" then
        (Except.ok (⟨[]⟩ : ResearchResult)) else .error "invalid json")
      (.error "gen unavailable") "preamble\n\"leads\": []\n```").2.1
    "invalid json" "\"leads\": []\n```" (⟨[]⟩ : ResearchResult)
    (by rfl) (by decide) (by rfl)

/-! ## Lemmas about the job state machine -/

/-- Saving a row into an inactive status never violates the partial
unique index. -/
theorem save_job_inactive_ok (jobs : List RJob) (j : RJob)
    (h : j.status.isActive = false) :
    save_job jobs j = .ok (jobs.map (upd_row j)) := by
  unfold save_job
  rw [h]
  simp

theorem try_save_inactive_ok (s : SysState) (j : RJob)
    (h : j.status.isActive = false) :
    try_save s j = .ok { s with jobs := s.jobs.map (upd_row j) } := by
  unfold try_save
  rw [save_job_inactive_ok s.jobs j h]

theorem try_save_inactive_error_absurd (s : SysState) (j : RJob) (e : String)
    (h : j.status.isActive = false) : try_save s j ≠ .error e := by
  rw [try_save_inactive_ok s j h]
  intro hc
  cases hc

theorem save_job_ok_eq {jobs : List RJob} {j : RJob} {jobs' : List RJob}
    (h : save_job jobs j = .ok jobs') :
    jobs' = jobs.map (upd_row j) := by
  unfold save_job at h
  split at h
  · cases h
  · cases h
    rfl

theorem try_save_ok_eq {s : SysState} {j : RJob} {s' : SysState}
    (h : try_save s j = .ok s') :
    s' = { s with jobs := s.jobs.map (upd_row j) } := by
  unfold try_save at h
  rcases hs : save_job s.jobs j with e | jobs'
  · rw [hs] at h; cases h
  · rw [hs] at h
    cases h
    rw [save_job_ok_eq hs]

theorem upd_row_id (j x : RJob) : (upd_row j x).id = x.id := by
  unfold upd_row
  by_cases hx : x.id = j.id <;> simp [hx]

/-- Looking a job up after an id-keyed row update. -/
theorem find_job_upd_row (jobs : List RJob) (j : RJob) (id : Nat) :
    find_job (jobs.map (upd_row j)) id = (find_job jobs id).map (upd_row j) := by
  unfold find_job
  have hp : ((fun x : RJob => decide (x.id = id)) ∘ upd_row j) =
      (fun x : RJob => decide (x.id = id)) := by
    funext y
    simp [Function.comp, upd_row_id]
  rw [List.find?_map, hp]

/-- The instrumented create-call count of `start_research_job` is
exactly the `start_makes_create_call` predicate. -/
theorem start_agent_calls (s : SysState) (job_id : Nat)
    (out : Except String String) (now : Nat) :
    (start_research_job s job_id out now).agent_create_calls =
      if start_makes_create_call s job_id then 1 else 0 := by
  unfold start_research_job start_makes_create_call
  rcases hj : find_job s.jobs job_id with _ | job <;> dsimp only
  · rfl
  · by_cases h1 : job.gemini_interaction_id ≠ ""
    · rw [if_pos h1]
      have hb : (job.gemini_interaction_id == "") = false := by
        simp only [beq_eq_false_iff_ne, ne_eq]
        exact h1
      rw [hb]
      rfl
    · have h1' : job.gemini_interaction_id = "" := not_not.mp h1
      rw [if_neg h1, h1']
      simp only [beq_self_eq_true, Bool.true_and]
      by_cases h2 : job.status ≠ .pending ∧ job.status ≠ .not_started
      · rw [if_pos h2]
        have hb : (job.status == .pending || job.status == .not_started) = false := by
          rcases h2 with ⟨ha, hb⟩
          simp [ha, hb]
        rw [hb]
        rfl
      · rw [if_neg h2]
        have hb : (job.status == .pending || job.status == .not_started) = true := by
          rcases not_and_or.mp h2 with ha | hb
          · simp [not_not.mp ha]
          · simp [not_not.mp hb]
        rw [hb]
        rcases out with e | handle <;> dsimp only
        · split <;> rfl
        · split
          · rfl
          · split <;> rfl

/-- A start that does not reach the create call leaves the state
untouched and issues no create call. -/
theorem start_no_call (s : SysState) (job_id : Nat)
    (out : Except String String) (now : Nat)
    (hcall : start_makes_create_call s job_id = false) :
    (start_research_job s job_id out now).state = s ∧
    (start_research_job s job_id out now).agent_create_calls = 0 := by
  unfold start_makes_create_call at hcall
  unfold start_research_job
  rcases hj : find_job s.jobs job_id with _ | job <;> dsimp only
  · exact ⟨rfl, rfl⟩
  · rw [hj] at hcall
    dsimp only at hcall
    by_cases h1 : job.gemini_interaction_id ≠ ""
    · rw [if_pos h1]
      exact ⟨rfl, rfl⟩
    · have h1' : job.gemini_interaction_id = "" := not_not.mp h1
      rw [if_neg h1]
      simp only [h1', beq_self_eq_true, Bool.true_and] at hcall
      have h2 : job.status ≠ .pending ∧ job.status ≠ .not_started := by
        constructor
        · intro hp
          rw [hp] at hcall
          simp at hcall
        · intro hp
          rw [hp] at hcall
          simp at hcall
      rw [if_pos h2]
      exact ⟨rfl, rfl⟩

/-- After a start that reached the create call (with a non-empty handle
on success), the job can no longer trigger a second create call. -/
theorem start_not_startable_after (s : SysState) (job_id : Nat)
    (out : Except String String) (now : Nat)
    (hok : ∀ h, out = .ok h → h ≠ "")
    (hcall : start_makes_create_call s job_id = true) :
    start_makes_create_call (start_research_job s job_id out now).state job_id =
      false := by
  unfold start_makes_create_call at hcall
  rcases hj : find_job s.jobs job_id with _ | job
  · rw [hj] at hcall
    dsimp only at hcall
    cases hcall
  · rw [hj] at hcall
    dsimp only at hcall
    have h1 : job.gemini_interaction_id = "" := by
      rcases Bool.and_eq_true .. |>.mp hcall with ⟨ha, _⟩
      simpa using ha
    have h2 : ¬(job.status ≠ .pending ∧ job.status ≠ .not_started) := by
      rcases Bool.and_eq_true .. |>.mp hcall with ⟨_, hb⟩
      rcases Bool.or_eq_true .. |>.mp hb with hp | hp <;>
        (intro hc; rcases hc with ⟨hn1, hn2⟩)
      · exact hn1 (by simpa using hp)
      · exact hn2 (by simpa using hp)
    have h1ne : ¬job.gemini_interaction_id ≠ "" := not_not.mpr h1
    unfold start_research_job
    rw [hj]
    dsimp only
    rw [if_neg h1ne, if_neg h2]
    rcases out with e | handle <;> dsimp only
    · split
      · rename_i s1 htr
        rw [try_save_ok_eq htr]
        unfold start_makes_create_call
        dsimp only
        rw [find_job_upd_row, hj]
        simp [upd_row]
      · rename_i e2 htr
        exact absurd htr (try_save_inactive_error_absurd _ _ _ rfl)
    · have hh : handle ≠ "" := hok handle rfl
      split
      · rename_i s1 htr
        rw [try_save_ok_eq htr]
        unfold start_makes_create_call
        dsimp only
        rw [find_job_upd_row, hj]
        simp [upd_row, hh]
      · rename_i e2 htr
        split
        · rename_i s2 htr2
          rw [try_save_ok_eq htr2]
          unfold start_makes_create_call
          dsimp only
          rw [find_job_upd_row, hj]
          simp [upd_row, hh]
        · rename_i e3 htr2
          exact absurd htr2 (try_save_inactive_error_absurd _ _ _ rfl)

/-- **C5** `start` is idempotent with respect to the external create
call: on a job whose interaction handle is non-empty it performs no
external create call and leaves the whole store (hence the job's status,
handle, error and timestamps) unchanged, and two sequential starts on
the same job issue at most one external create call (the external
service returns non-empty handles). -/
theorem start_idempotent (s : SysState) (job_id : Nat)
    (out1 out2 : Except String String) (now1 now2 : Nat)
    (hok : ∀ h, out1 = .ok h → h ≠ "") :
    (∀ job, find_job s.jobs job_id = some job →
      job.gemini_interaction_id ≠ "" →
      start_research_job s job_id out1 now1 =
        { state := s, result := .ok "already_started", agent_create_calls := 0 }) ∧
    (start_research_job s job_id out1 now1).agent_create_calls +
      (start_research_job (start_research_job s job_id out1 now1).state job_id
        out2 now2).agent_create_calls ≤ 1 := by
  constructor
  · intro job hj hh
    unfold start_research_job
    rw [hj]
    dsimp only
    rw [if_pos hh]
  · by_cases hc : start_makes_create_call s job_id = true
    · have h2 := start_not_startable_after s job_id out1 now1 hok hc
      rw [start_agent_calls, start_agent_calls, hc, h2]
      simp
    · have hcf : start_makes_create_call s job_id = false :=
        Bool.not_eq_true _ ▸ Bool.of_not_eq_true hc
      obtain ⟨hs, _⟩ := start_no_call s job_id out1 now1 hcf
      rw [start_agent_calls, start_agent_calls, hcf, hs, hcf]
      simp

/-- Concrete instance of `start_idempotent`: a running job that already
has handle "int-1" is left untouched by `start` and two consecutive
starts issue no create call at all. -/
theorem start_idempotent_witness :
    find_job
        [{ id := 0, city := 0, status := JStatus.running,
           gemini_interaction_id := "int-1" }] 0 =
      some
        { id := 0, city := 0, status := JStatus.running,
          gemini_interaction_id := "int-1" } ∧
    start_research_job
        { jobs :=
            [{ id := 0, city := 0, status := JStatus.running,
               gemini_interaction_id := "int-1" }],
          next_job_id := 1 }
        0 (.ok "int-2") 5 =
      { state :=
          { jobs :=
              [{ id := 0, city := 0, status := JStatus.running,
                 gemini_interaction_id := "int-1" }],
            next_job_id := 1 },
        result := .ok "already_started", agent_create_calls := 0 } := by
  refine ⟨by decide, ?_⟩
  exact (start_idempotent
      { jobs :=
          [{ id := 0, city := 0, status := JStatus.running,
             gemini_interaction_id := "int-1" }],
        next_job_id := 1 }
      0 (.ok "int-2") (.ok "int-3") 5 6
      (by intro h hh; cases hh; decide)).1
    { id := 0, city := 0, status := JStatus.running,
      gemini_interaction_id := "int-1" }
    (by decide) (by decide)

/-- Every candidate reconciles (the reconciler always returns a lead),
so the loop counter equals the number of candidates. -/
theorem create_leads_count (city : Nat) :
    ∀ (ds : List ResearchLead) (crm : CrmState),
      (create_leads crm city ds).2 = ds.length := by
  intro ds
  induction ds with
  | nil => intro crm; rfl
  | cons d ds ih =>
      intro crm
      simp only [create_leads, ih, List.length_cons]

/-- **C7** `reprocess` on a job with no stored raw text rejects with an
error and changes nothing; with stored raw text it re-runs parsing and
reconciliation without any external agent create call, and on success
sets status completed, `leads_created` = number of candidates
reconciled, and clears the error; on parse failure it sets status failed
with the error and leaves the stored raw text unchanged so reprocess can
be retried. -/
theorem reprocess_contract (s : SysState) (job_id : Nat)
    (validate : String → Except String ResearchResult)
    (gen : Except String String) (now : Nat) :
    ((reprocess_job s job_id validate gen now).agent_create_calls = 0) ∧
    (∀ job, find_job s.jobs job_id = some job → job.raw_result.getD "" = "" →
      reprocess_job s job_id validate gen now =
        { state := s, result := .error "Job has no raw_result to reprocess",
          agent_create_calls := 0 }) ∧
    (∀ job raw res, find_job s.jobs job_id = some job →
      job.raw_result = some raw → raw ≠ "" →
      parse_research_result validate gen raw = .ok res →
      (reprocess_job s job_id validate gen now).result =
        .ok (create_leads s.crm job.city res.leads).2 ∧
      (create_leads s.crm job.city res.leads).2 = res.leads.length ∧
      find_job (reprocess_job s job_id validate gen now).state.jobs job_id =
        some { job with result := some res,
                        leads_created := (create_leads s.crm job.city res.leads).2,
                        status := .completed, error := "",
                        completed_at := some now }) ∧
    (∀ job raw e, find_job s.jobs job_id = some job →
      job.raw_result = some raw → raw ≠ "" →
      parse_research_result validate gen raw = .error e →
      (reprocess_job s job_id validate gen now).result = .error e ∧
      find_job (reprocess_job s job_id validate gen now).state.jobs job_id =
        some { job with status := .failed, error := e } ∧
      ({ job with status := .failed, error := e } : RJob).raw_result =
        job.raw_result) := by
  refine ⟨?_, ?_, ?_, ?_⟩
  · unfold reprocess_job
    rcases hj : find_job s.jobs job_id with _ | job <;> dsimp only
    split
    · rfl
    · split
      · split
        · rfl
        · split <;> rfl
      · split <;> rfl
  · intro job hj hraw
    unfold reprocess_job
    rw [hj]
    dsimp only
    rw [if_pos hraw]
  · intro job raw res hj hraw hne hparse
    unfold reprocess_job
    rw [hj]
    dsimp only
    rw [hraw]
    have hne' : (some raw).getD "" ≠ "" := by simpa using hne
    rw [if_neg hne']
    rw [show (some raw).getD "" = raw from rfl, hparse]
    dsimp only
    split
    · rename_i s2 htr
      have hs2 := try_save_ok_eq htr
      refine ⟨rfl, create_leads_count job.city res.leads s.crm, ?_⟩
      dsimp only
      rw [hs2]
      dsimp only
      rw [find_job_upd_row, hj]
      simp [upd_row]
    · rename_i e htr
      exact absurd htr (try_save_inactive_error_absurd _ _ _ rfl)
  · intro job raw e hj hraw hne hparse
    unfold reprocess_job
    rw [hj]
    dsimp only
    rw [hraw]
    have hne' : (some raw).getD "" ≠ "" := by simpa using hne
    rw [if_neg hne']
    rw [show (some raw).getD "" = raw from rfl, hparse]
    dsimp only
    split
    · rename_i s2 htr
      have hs2 := try_save_ok_eq htr
      refine ⟨rfl, ?_, rfl⟩
      dsimp only
      rw [hs2]
      dsimp only
      rw [find_job_upd_row, hj]
      simp [upd_row]
    · rename_i e2 htr
      exact absurd htr (try_save_inactive_error_absurd _ _ _ rfl)

/-- Concrete instance of `reprocess_contract`: a failed job holding raw
text "x" reprocessed with a validator that accepts "x" as the empty-lead
result becomes completed with zero leads and a cleared error. -/
theorem reprocess_contract_witness :
    find_job
        [{ id := 0, city := 0, status := JStatus.failed, raw_result := some "x",
           error := "old" }] 0 =
      some
        { id := 0, city := 0, status := JStatus.failed, raw_result := some "x",
          error := "old" } ∧
    find_job (reprocess_job
        { jobs :=
            [{ id := 0, city := 0, status := JStatus.failed,
               raw_result := some "x", error := "old" }],
          next_job_id := 1 }
        0 (fun t => if t = "x" then .ok ⟨[]⟩ else .error "bad")
        (.error "no gen") 7).state.jobs 0 =
      some
        { id := 0, city := 0, status := JStatus.completed,
          raw_result := some "x", result := some ⟨[]⟩, error := "",
          leads_created := 0, completed_at := some 7 } := by
  refine ⟨by decide, ?_⟩
  have h := (reprocess_contract
      { jobs :=
          [{ id := 0, city := 0, status := JStatus.failed,
             raw_result := some "x", error := "old" }],
        next_job_id := 1 }
      0 (fun t => if t = "x" then .ok ⟨[]⟩ else .error "bad")
      (.error "no gen") 7).2.2.1
    { id := 0, city := 0, status := JStatus.failed, raw_result := some "x",
      error := "old" }
    "x" ⟨[]⟩ (by decide) (by decide) (by decide) (by rfl)
  exact h.2.2.trans (by decide)

/-- A `queue_research` call for a city that already has an active job
fails with a Conflict error and leaves the store unchanged. -/
theorem queue_research_conflict (s : SysState) (city : Nat)
    (h : has_active_job s.jobs city = true) :
    queue_research s city =
      { state := s, result := .error "Research already running" } := by
  unfold queue_research
  rw [h, if_pos rfl]

/-- **C9 — counterexample** The claim says that when a city has exactly
one research job, in `not_started`, a `queue_research` call succeeds and
*that job* becomes `pending`.  On the code the call succeeds but the
existing `not_started` job is untouched: a brand-new `pending` job is
created instead.  Witnessed at a store holding the single job id 0 for
city 0 in `not_started`. -/
theorem queue_not_started_counterexample :
    (queue_research { jobs := [{ id := 0, city := 0 }], next_job_id := 1 }
        0).result = .ok 1 ∧
    find_job (queue_research { jobs := [{ id := 0, city := 0 }], next_job_id := 1 }
        0).state.jobs 0 = some { id := 0, city := 0 } ∧
    ({ id := 0, city := 0 } : RJob).status = JStatus.not_started ∧
    JStatus.not_started ≠ JStatus.pending := by
  refine ⟨by rfl, by decide, by decide, by decide⟩

/-- **C9 — amended** When a city has exactly one research job and it is
in `not_started`, `queue_research` for that city succeeds, leaves the
existing job unchanged, and creates a *new* job in `pending`; a second
`queue_research` call for the same city before `start` runs fails with a
Conflict error and leaves the store unchanged. -/
theorem queue_with_not_started_job (s : SysState) (city : Nat) (j : RJob)
    (hjobs : s.jobs = [j]) (hcity : j.city = city)
    (hstatus : j.status = .not_started) :
    (queue_research s city).result = .ok s.next_job_id ∧
    (queue_research s city).state.jobs =
      [{ id := s.next_job_id, city := city, status := .pending }, j] ∧
    (queue_research (queue_research s city).state city).result =
      .error "Research already running" ∧
    (queue_research (queue_research s city).state city).state =
      (queue_research s city).state := by
  have hact : has_active_job s.jobs city = false := by
    rw [hjobs]
    simp [has_active_job, hstatus, JStatus.isActive]
  have hq : queue_research s city =
      { state :=
          { s with
              jobs :=
                [{ id := s.next_job_id, city := city, status := .pending }, j],
              next_job_id := s.next_job_id + 1 },
        result := .ok s.next_job_id } := by
    unfold queue_research
    rw [hact, if_neg Bool.false_ne_true]
    unfold try_insert insert_job
    rw [hjobs]
    have hg2 : ∀ nj : RJob,
        (nj.status.isActive &&
          [j].any (fun x => x.city == nj.city && x.status.isActive)) = false := by
      intro nj
      simp [hstatus, JStatus.isActive]
    rw [hg2, if_neg Bool.false_ne_true]
  have hact2 : has_active_job (queue_research s city).state.jobs city = true := by
    rw [hq]
    simp [has_active_job, JStatus.isActive]
  have hconf := queue_research_conflict (queue_research s city).state city hact2
  refine ⟨by rw [hq], by rw [hq], by rw [hconf], by rw [hconf]⟩

/-- Concrete instance of `queue_with_not_started_job` at the store of
`queue_not_started_counterexample`. -/
theorem queue_with_not_started_job_witness :
    (queue_research { jobs := [{ id := 0, city := 0 }], next_job_id := 1 }
        0).result = .ok 1 ∧
    (queue_research (queue_research
        { jobs := [{ id := 0, city := 0 }], next_job_id := 1 } 0).state 0).result =
      .error "Research already running" := by
  have h := queue_with_not_started_job
    { jobs := [{ id := 0, city := 0 }], next_job_id := 1 } 0
    { id := 0, city := 0 } (by decide) (by decide) (by decide)
  exact ⟨h.1, h.2.2.1⟩

/-- Every poll cycle processes the whole running-jobs snapshot, whatever
the individual outcomes are. -/
theorem poll_loop_processed (ext : Nat → PollOutcome)
    (validate : String → Except String ResearchResult)
    (gen : Except String String) (now : Nat) :
    ∀ (snapshot : List RJob) (s : SysState) (acc : PollCounts),
      (poll_loop ext validate gen now s acc snapshot).2.processed =
        acc.processed + snapshot.length := by
  intro snapshot
  induction snapshot with
  | nil => intro s acc; rfl
  | cons job rest ih =>
      intro s acc
      simp only [poll_loop]
      rw [ih]
      split_ifs <;> simp only [List.length_cons] <;> omega

/-- **C8 — counterexample** The claim says a failure inside background
execution of `start` is recorded on the job row and the operation
returns normally rather than propagating.  On the code the `start`
except-branch records the failure and then re-raises: at a store with
one pending job, a create call that raises "API error" leaves the job
failed with the error recorded, but the task itself ends with that
exception rather than a normal return. -/
theorem background_failure_counterexample :
    (start_research_job
        { jobs := [{ id := 0, city := 0, status := JStatus.pending }],
          next_job_id := 1 }
        0 (.error "API error") 5).result = .error "API error" ∧
    find_job (start_research_job
        { jobs := [{ id := 0, city := 0, status := JStatus.pending }],
          next_job_id := 1 }
        0 (.error "API error") 5).state.jobs 0 =
      some { id := 0, city := 0, status := JStatus.failed, error := "API error",
             completed_at := some 5 } := by
  refine ⟨by rfl, by decide⟩

/-- **C8 — amended** Every failure arising inside background execution
is recorded on the job row (status failed, error text stored).  A
poll-time exception is additionally caught per job: `_poll_and_process`
returns normally and the poll cycle processes every job of the running
snapshot, so one job's exception never prevents the remaining running
jobs from being processed.  `start` and `reprocess`, however, re-raise
the exception after recording it, so their runner observes the failure
rather than a normal return. -/
theorem background_failure_recording (s : SysState) (job_id : Nat) (now : Nat)
    (validate : String → Except String ResearchResult)
    (gen : Except String String) (ext : Nat → PollOutcome) :
    (∀ job e, find_job s.jobs job_id = some job →
      job.gemini_interaction_id = "" →
      ¬(job.status ≠ .pending ∧ job.status ≠ .not_started) →
      (start_research_job s job_id (.error e) now).result = .error e ∧
      find_job (start_research_job s job_id (.error e) now).state.jobs job_id =
        some { job with status := .failed, error := e,
                        completed_at := some now }) ∧
    (∀ job raw e, find_job s.jobs job_id = some job →
      job.raw_result = some raw → raw ≠ "" →
      parse_research_result validate gen raw = .error e →
      (reprocess_job s job_id validate gen now).result = .error e ∧
      find_job (reprocess_job s job_id validate gen now).state.jobs job_id =
        some { job with status := .failed, error := e }) ∧
    (∀ (s2 : SysState) (job : RJob) (e : String),
      poll_and_process s2 job (.exn e) validate gen now =
        ({ s2 with jobs := s2.jobs.map (upd_row
            { job with status := .failed, error := e,
                       completed_at := some now }) }, "error")) ∧
    ((poll_research_jobs s ext validate gen now).2.processed =
      (s.jobs.filter (fun j => j.status == .running)).length) := by
  refine ⟨?_, ?_, ?_, ?_⟩
  · intro job e hj hh hst
    unfold start_research_job
    rw [hj]
    dsimp only
    rw [if_neg (not_not.mpr hh), if_neg hst]
    split
    · rename_i s1 htr
      rw [try_save_ok_eq htr]
      refine ⟨rfl, ?_⟩
      dsimp only
      rw [find_job_upd_row, hj]
      simp [upd_row]
    · rename_i e2 htr
      exact absurd htr (try_save_inactive_error_absurd _ _ _ rfl)
  · intro job raw e hj hraw hne hparse
    unfold reprocess_job
    rw [hj]
    dsimp only
    rw [hraw]
    have hne' : (some raw).getD "" ≠ "" := by simpa using hne
    rw [if_neg hne']
    rw [show (some raw).getD "" = raw from rfl, hparse]
    dsimp only
    split
    · rename_i s2 htr
      rw [try_save_ok_eq htr]
      refine ⟨rfl, ?_⟩
      dsimp only
      rw [find_job_upd_row, hj]
      simp [upd_row]
    · rename_i e2 htr
      exact absurd htr (try_save_inactive_error_absurd _ _ _ rfl)
  · intro s2 job e
    unfold poll_and_process
    dsimp only
    rw [try_save_inactive_ok s2
      { job with status := .failed, error := e, completed_at := some now } rfl]
  · unfold poll_research_jobs
    rw [poll_loop_processed]
    simp

/-- Concrete instance of `background_failure_recording`: the setting of
`background_failure_counterexample`, plus a two-job poll cycle where the
first job's poll raises and the second is still processed. -/
theorem background_failure_recording_witness :
    (start_research_job
        { jobs := [{ id := 0, city := 0, status := JStatus.pending }],
          next_job_id := 1 }
        0 (.error "boom") 5).result = .error "boom" ∧
    (poll_research_jobs
        { jobs := [{ id := 0, city := 0, status := JStatus.running },
                   { id := 1, city := 1, status := JStatus.running }],
          next_job_id := 2 }
        (fun _ => .exn "net down") (fun _ => .error "bad") (.error "no gen")
        9).2.processed = 2 := by
  constructor
  · exact ((background_failure_recording
        { jobs := [{ id := 0, city := 0, status := JStatus.pending }],
          next_job_id := 1 }
        0 5 (fun _ => .error "bad") (.error "no gen") (fun _ => .exn "x")).1
      { id := 0, city := 0, status := JStatus.pending } "boom"
      (by decide) (by decide) (by decide)).1
  · exact ((background_failure_recording
        { jobs := [{ id := 0, city := 0, status := JStatus.running },
                   { id := 1, city := 1, status := JStatus.running }],
          next_job_id := 2 }
        0 9 (fun _ => .error "bad") (.error "no gen")
        (fun _ => .exn "net down")).2.2.2).trans (by decide)

/-! ## The active-job uniqueness invariant -/

theorem save_job_ok_guard {jobs : List RJob} {j : RJob} {jobs' : List RJob}
    (h : save_job jobs j = .ok jobs') :
    j.status.isActive = false ∨
      ∀ x ∈ jobs, ¬(x.id ≠ j.id ∧ x.city = j.city ∧ x.status.isActive = true) := by
  unfold save_job at h
  split at h
  · cases h
  · rename_i hguard
    by_cases ha : j.status.isActive = true
    · right
      rintro x hx ⟨hid, hcity, hact⟩
      apply hguard
      rw [Bool.and_eq_true]
      refine ⟨ha, ?_⟩
      rw [List.any_eq_true]
      exact ⟨x, hx, by simp [hid, hcity, hact]⟩
    · left
      simpa using ha

theorem try_save_ok_guard {s : SysState} {j : RJob} {s' : SysState}
    (h : try_save s j = .ok s') :
    j.status.isActive = false ∨
      ∀ x ∈ s.jobs, ¬(x.id ≠ j.id ∧ x.city = j.city ∧ x.status.isActive = true) := by
  unfold try_save at h
  rcases hs : save_job s.jobs j with e | jobs'
  · rw [hs] at h; cases h
  · exact save_job_ok_guard hs

theorem jobs_ok_try_save {s : SysState} {j : RJob} {s' : SysState}
    (hok : jobs_ok s) (h : try_save s j = .ok s') : jobs_ok s' := by
  obtain ⟨hb, hn, hp⟩ := hok
  have hguard := try_save_ok_guard h
  rw [try_save_ok_eq h]
  refine ⟨?_, ?_, ?_⟩
  · intro x hx
    dsimp only at hx ⊢
    rcases List.mem_map.mp hx with ⟨y, hy, rfl⟩
    rw [upd_row_id]
    exact hb y hy
  · dsimp only
    have hmap : (s.jobs.map (upd_row j)).map RJob.id = s.jobs.map RJob.id := by
      rw [List.map_map]
      refine List.map_congr_left ?_
      intro x _
      exact upd_row_id j x
    rw [hmap]
    exact hn
  · dsimp only
    rw [List.pairwise_map]
    have hn' : s.jobs.Pairwise (fun a b => a.id ≠ b.id) := by
      have := List.pairwise_map.mp hn
      exact this
    refine (hp.and hn').imp_of_mem ?_
    intro a b ha hb2 hR
    obtain ⟨hab, hid⟩ := hR
    unfold upd_row no_two_active
    by_cases h1 : a.id = j.id <;> by_cases h2 : b.id = j.id
    · exact absurd (h1.trans h2.symm) hid
    · rw [if_pos h1, if_neg h2]
      rintro ⟨hc, hja, hba⟩
      rcases hguard with hg | hg
      · rw [hja] at hg
        cases hg
      · exact hg b hb2 ⟨fun he => h2 he, hc.symm, hba⟩
    · rw [if_neg h1, if_pos h2]
      rintro ⟨hc, haa, hjb⟩
      rcases hguard with hg | hg
      · rw [hjb] at hg
        cases hg
      · exact hg a ha ⟨fun he => h1 he, hc, haa⟩
    · rw [if_neg h1, if_neg h2]
      exact hab

theorem try_insert_ok_eq {s : SysState} {j : RJob} {s' : SysState}
    (h : try_insert s j = .ok s') :
    s' = { s with jobs := j :: s.jobs, next_job_id := s.next_job_id + 1 } ∧
      (j.status.isActive = false ∨
        ∀ x ∈ s.jobs, ¬(x.city = j.city ∧ x.status.isActive = true)) := by
  unfold try_insert insert_job at h
  split at h
  · rename_i jobs0 heq
    cases h
    split at heq
    · cases heq
    · rename_i hguard
      cases heq
      refine ⟨rfl, ?_⟩
      by_cases ha : j.status.isActive = true
      · right
        rintro x hx ⟨hcity, hact⟩
        apply hguard
        rw [Bool.and_eq_true]
        refine ⟨ha, ?_⟩
        rw [List.any_eq_true]
        exact ⟨x, hx, by simp [hcity, hact]⟩
      · left
        simpa using ha
  · rename_i e heq
    cases h

theorem jobs_ok_try_insert {s : SysState} {j : RJob} {s' : SysState}
    (hok : jobs_ok s) (hid : j.id = s.next_job_id)
    (h : try_insert s j = .ok s') : jobs_ok s' := by
  obtain ⟨hb, hn, hp⟩ := hok
  obtain ⟨heq, hguard⟩ := try_insert_ok_eq h
  subst heq
  refine ⟨?_, ?_, ?_⟩
  · intro x hx
    dsimp only at hx ⊢
    rcases List.mem_cons.mp hx with rfl | hx
    · rw [hid]
      exact Nat.lt_succ_self _
    · exact Nat.lt_trans (hb x hx) (Nat.lt_succ_self _)
  · dsimp only
    rw [List.map_cons]
    refine List.nodup_cons.mpr ⟨?_, hn⟩
    intro hmem
    rcases List.mem_map.mp hmem with ⟨y, hy, hyid⟩
    have hlt := hb y hy
    rw [hyid, hid] at hlt
    exact Nat.lt_irrefl _ hlt
  · dsimp only
    refine List.Pairwise.cons ?_ hp
    intro b hbmem
    unfold no_two_active
    rintro ⟨hc, hja, hba⟩
    rcases hguard with hg | hg
    · rw [hja] at hg
      cases hg
    · exact hg b hbmem ⟨hc.symm, hba⟩

theorem jobs_ok_queue (s : SysState) (city : Nat) (hok : jobs_ok s) :
    jobs_ok (queue_research s city).state := by
  unfold queue_research
  split
  · exact hok
  · split
    · rename_i s1 hins
      exact jobs_ok_try_insert hok rfl hins
    · exact hok

theorem jobs_ok_create (s : SysState) (city : Nat) (hok : jobs_ok s) :
    jobs_ok (create_research_job s city).state := by
  unfold create_research_job
  split
  · exact hok
  · split
    · rename_i s1 hins
      exact jobs_ok_try_insert hok rfl hins
    · exact hok

theorem jobs_ok_run (s : SysState) (job_id : Nat) (hok : jobs_ok s) :
    jobs_ok (run_research_job s job_id).state := by
  unfold run_research_job
  split
  · exact hok
  · split
    · exact hok
    · split
      · rename_i s1 hsave
        exact jobs_ok_try_save hok hsave
      · exact hok

theorem jobs_ok_start (s : SysState) (job_id : Nat)
    (out : Except String String) (now : Nat) (hok : jobs_ok s) :
    jobs_ok (start_research_job s job_id out now).state := by
  unfold start_research_job
  split
  · exact hok
  · split
    · exact hok
    · split
      · exact hok
      · split
        · dsimp only
          split
          · rename_i s1 hsave
            exact jobs_ok_try_save hok hsave
          · split
            · rename_i s1 hsave
              exact jobs_ok_try_save hok hsave
            · exact hok
        · dsimp only
          split
          · rename_i s1 hsave
            exact jobs_ok_try_save hok hsave
          · exact hok

theorem jobs_ok_set_crm (s : SysState) (crm : CrmState) (hok : jobs_ok s) :
    jobs_ok { s with crm := crm } := hok

theorem jobs_ok_reprocess (s : SysState) (job_id : Nat)
    (validate : String → Except String ResearchResult)
    (gen : Except String String) (now : Nat) (hok : jobs_ok s) :
    jobs_ok (reprocess_job s job_id validate gen now).state := by
  unfold reprocess_job
  split
  · exact hok
  · split
    · exact hok
    · split
      · dsimp only
        split
        · rename_i s1 hsave
          exact jobs_ok_try_save (jobs_ok_set_crm s _ hok) hsave
        · split
          · rename_i s1 hsave
            exact jobs_ok_try_save (jobs_ok_set_crm s _ hok) hsave
          · exact jobs_ok_set_crm s _ hok
      · dsimp only
        split
        · rename_i s1 hsave
          exact jobs_ok_try_save hok hsave
        · exact hok

theorem jobs_ok_process_completed (s : SysState) (job : RJob) (text : String)
    (validate : String → Except String ResearchResult)
    (gen : Except String String) (now : Nat) (hok : jobs_ok s) :
    jobs_ok (process_completed_job s job text validate gen now).1 := by
  unfold process_completed_job
  split
  · exact hok
  · dsimp only
    split
    · exact hok
    · rename_i s1 hsave1
      have hok1 := jobs_ok_try_save hok hsave1
      split
      · exact hok1
      · split
        · rename_i s3 hsave2
          exact jobs_ok_try_save (jobs_ok_set_crm s1 _ hok1) hsave2
        · exact jobs_ok_set_crm s1 _ hok1

theorem jobs_ok_poll_one (s : SysState) (job : RJob) (out : PollOutcome)
    (validate : String → Except String ResearchResult)
    (gen : Except String String) (now : Nat) (hok : jobs_ok s) :
    jobs_ok (poll_and_process s job out validate gen now).1 := by
  unfold poll_and_process
  split
  · dsimp only
    split
    · rename_i s1 hsave
      exact jobs_ok_try_save hok hsave
    · exact hok
  · rename_i text
    split
    · rename_i s2 j2 u hproc
      have h1 := jobs_ok_process_completed s job text validate gen now hok
      rw [hproc] at h1
      exact h1
    · rename_i s2 j2 e hproc
      have h1 := jobs_ok_process_completed s job text validate gen now hok
      rw [hproc] at h1
      dsimp only
      split
      · rename_i s3 hsave
        exact jobs_ok_try_save h1 hsave
      · exact h1
  · dsimp only
    split
    · rename_i s1 hsave
      exact jobs_ok_try_save hok hsave
    · exact hok
  · dsimp only
    split
    · rename_i s1 hsave
      exact jobs_ok_try_save hok hsave
    · exact hok
  · split
    · split
      · rename_i s1 hsave
        exact jobs_ok_try_save hok hsave
      · dsimp only
        split
        · rename_i s1 hsave
          exact jobs_ok_try_save hok hsave
        · exact hok
    · exact hok

theorem jobs_ok_poll_loop (ext : Nat → PollOutcome)
    (validate : String → Except String ResearchResult)
    (gen : Except String String) (now : Nat) :
    ∀ (snapshot : List RJob) (s : SysState) (acc : PollCounts),
      jobs_ok s → jobs_ok (poll_loop ext validate gen now s acc snapshot).1 := by
  intro snapshot
  induction snapshot with
  | nil => intro s acc h; exact h
  | cons job rest ih =>
      intro s acc h
      simp only [poll_loop]
      exact ih _ _ (jobs_ok_poll_one s job (ext job.id) validate gen now h)

theorem jobs_ok_poll_cycle (s : SysState) (ext : Nat → PollOutcome)
    (validate : String → Except String ResearchResult)
    (gen : Except String String) (now : Nat) (hok : jobs_ok s) :
    jobs_ok (poll_research_jobs s ext validate gen now).1 := by
  unfold poll_research_jobs
  exact jobs_ok_poll_loop ext validate gen now _ s {} hok

theorem jobs_ok_delete (s : SysState) (job_id : Nat) (hok : jobs_ok s) :
    jobs_ok (delete_research_job s job_id).state := by
  unfold delete_research_job
  split
  · exact hok
  · split
    · exact hok
    · obtain ⟨hb, hn, hp⟩ := hok
      refine ⟨?_, ?_, ?_⟩
      · intro x hx
        dsimp only at hx ⊢
        exact hb x (List.mem_of_mem_filter hx)
      · dsimp only
        exact hn.sublist ((List.filter_sublist _).map RJob.id)
      · dsimp only
        exact hp.sublist (List.filter_sublist _)

/-- Every pipeline transition preserves the job-table invariant. -/
theorem jobs_ok_step {s s' : SysState} (hok : jobs_ok s) (hstep : Step s s') :
    jobs_ok s' := by
  cases hstep with
  | create city => exact jobs_ok_create s city hok
  | queue city => exact jobs_ok_queue s city hok
  | run job_id => exact jobs_ok_run s job_id hok
  | start job_id create_out now => exact jobs_ok_start s job_id create_out now hok
  | poll ext validate gen now => exact jobs_ok_poll_cycle s ext validate gen now hok
  | reprocess job_id validate gen now =>
      exact jobs_ok_reprocess s job_id validate gen now hok
  | delete job_id => exact jobs_ok_delete s job_id hok

theorem jobs_ok_reachable {s : SysState} (h : Reachable s) : jobs_ok s := by
  induction h with
  | init =>
      exact ⟨fun j hj => absurd hj (List.not_mem_nil j), List.nodup_nil,
        List.Pairwise.nil⟩
  | step _ hstep ih => exact jobs_ok_step ih hstep

/-- A pairwise-no-two-active table has at most one active row per city. -/
theorem active_filter_le_one {jobs : List RJob}
    (hp : jobs.Pairwise no_two_active) (city : Nat) :
    (jobs.filter (fun j => j.city == city && j.status.isActive)).length ≤ 1 := by
  have hf : (jobs.filter
      (fun j => j.city == city && j.status.isActive)).Pairwise no_two_active :=
    hp.sublist (List.filter_sublist _)
  rcases hl : jobs.filter (fun j => j.city == city && j.status.isActive)
    with _ | ⟨x, _ | ⟨y, t⟩⟩
  · rw [hl]
    simp
  · rw [hl]
    simp
  · exfalso
    rw [hl] at hf
    have hxy : no_two_active x y := by
      have h1 := (List.pairwise_cons.mp hf).1 y (by simp)
      exact h1
    have hx : x ∈ jobs.filter (fun j => j.city == city && j.status.isActive) := by
      rw [hl]; simp
    have hy : y ∈ jobs.filter (fun j => j.city == city && j.status.isActive) := by
      rw [hl]; simp
    have hxp := List.of_mem_filter hx
    have hyp := List.of_mem_filter hy
    rcases Bool.and_eq_true _ _ |>.mp hxp with ⟨hxc, hxa⟩
    rcases Bool.and_eq_true _ _ |>.mp hyp with ⟨hyc, hya⟩
    apply hxy
    refine ⟨?_, hxa, hya⟩
    have hxc' : x.city = city := by simpa using hxc
    have hyc' : y.city = city := by simpa using hyc
    rw [hxc', hyc']

/-- **C2** In every reachable state of the job store, at most one
research job with status in {pending, running} exists per city; and a
`queue_research` call for a city that already has an active job fails
with a Conflict error, leaving the job store unchanged. -/
theorem active_job_uniqueness (s : SysState) (hs : Reachable s) :
    (∀ city : Nat,
      (s.jobs.filter (fun j => j.city == city && j.status.isActive)).length ≤ 1) ∧
    (∀ city : Nat, has_active_job s.jobs city = true →
      queue_research s city =
        { state := s, result := .error "Research already running" }) := by
  constructor
  · intro city
    exact active_filter_le_one (jobs_ok_reachable hs).2.2 city
  · intro city h
    exact queue_research_conflict s city h

/-- Concrete instance of `active_job_uniqueness`: after queueing
research for city 0 from the empty deployment, the reached state has at
most one active job for city 0 and a second `queue_research` for city 0
is rejected with Conflict, store unchanged. -/
theorem active_job_uniqueness_witness :
    ((queue_research ({} : SysState) 0).state.jobs.filter
      (fun j => j.city == 0 && j.status.isActive)).length ≤ 1 ∧
    has_active_job (queue_research ({} : SysState) 0).state.jobs 0 = true ∧
    queue_research (queue_research ({} : SysState) 0).state 0 =
      { state := (queue_research ({} : SysState) 0).state,
        result := .error "Research already running" } := by
  refine ⟨?_, by decide, ?_⟩
  · exact (active_job_uniqueness (queue_research ({} : SysState) 0).state
      (Reachable.step Reachable.init (Step.queue 0))).1 0
  · exact (active_job_uniqueness (queue_research ({} : SysState) 0).state
      (Reachable.step Reachable.init (Step.queue 0))).2 0 (by decide)

end MicroCrm
